import Mathlib

/-!
Verification of the multi-layer invoice validation and compliance-scoring
engine of the 2go_ai_app repository.

The TypeScript sources embedded here are:
* `src/services/bir-compliance.service.ts` (BIR compliance validator),
* `src/services/document-validation.service.ts` (completeness validator),
* `src/routes/api/document/batch-validate.tsx` (batch guards),
* the invoice re-validation route (`/api/ai/invoice/$invoiceNo`, POST).

Modelling conventions:
* JavaScript numbers are modelled as `ℚ` (exact rationals); `Math.round x`
  is `⌊x + 1/2⌋`, matching the JS round-half-up behaviour on the
  non-negative values that occur here.
* `null`/`undefined` are modelled as `Option.none`.  The code under
  verification distinguishes the two only inside the `present` flags of the
  field-completeness report (never in errors, warnings, scores or verdicts),
  so the collapse is observation-preserving for all claims.
* `new Date(s)` is modelled by `jsParseDate`, an order-preserving encoding
  of the `YYYY-MM-DD` ISO format that the system mandates for all dates;
  strings outside that format parse to `none` (the `NaN` date, whose
  comparisons are all false, exactly as in JS).
* The current clock (`new Date()`) is threaded as an explicit `today : ℤ`
  parameter in the same encoding.
-/

/-- JS `Math.round`: round half up. -/
def jround (q : ℚ) : ℤ := ⌊q + 1/2⌋

/-- Whitespace characters recognised by the JS `\s` class (ASCII part) and
by `String.prototype.trim`. -/
def jsIsSpace (c : Char) : Bool :=
  c = ' ' || c = '\t' || c = '\n' || c = '\r' || c = '\x0b' || c = '\x0c'

/-- JS `String.prototype.trim` on a character list. -/
def jsTrimList (l : List Char) : List Char :=
  ((l.dropWhile jsIsSpace).reverse.dropWhile jsIsSpace).reverse

/-- JS `String.prototype.trim`. -/
def jsTrim (s : String) : String := ⟨jsTrimList s.data⟩

/-- JS `str.replace(/\s/g, "")`: drop all whitespace characters. -/
def jsStripSpaces (s : String) : String := ⟨s.data.filter (fun c => !jsIsSpace c)⟩

/-- JS removal of all whitespace and dash characters (the global
whitespace-or-dash regex used on TINs). -/
def jsStripSpacesDashes (s : String) : String :=
  ⟨s.data.filter (fun c => !(jsIsSpace c || c = '-'))⟩

/-- Longest whitespace prefix of `l` followed by `(`:  the only way the JS
regex `\s*\(` can match at the current position. -/
def jsLabelMatchHead (l : List Char) : Option (List Char) :=
  match l.dropWhile jsIsSpace with
  | c :: rest => if c = '(' then some rest else none
  | [] => none

/-- After the `(`, the lazy `.*?\)` consumes up to the first `)`, and the
trailing `\s*` greedily eats whitespace. -/
def jsLabelMatchTail (l : List Char) : Option (List Char) :=
  match l.dropWhile (fun c => c ≠ ')') with
  | c :: rest => if c = ')' then some (rest.dropWhile jsIsSpace) else none
  | [] => none

/-- JS global removal of every parenthesised label, with surrounding
whitespace, scanning left to right (the lazy paren-group regex used to
clean VAT labels off TIN strings).  Fuel-recursive: each step either emits
or removes at least one character, so `l.length` fuel always suffices and
the fuel-exhausted branch is unreachable. -/
def jsStripParenLabelsF : ℕ → List Char → List Char
  | _, [] => []
  | 0, l => l
  | fuel + 1, c :: rest =>
    match jsLabelMatchHead (c :: rest) with
    | some afterParen =>
      match jsLabelMatchTail afterParen with
      | some after => jsStripParenLabelsF fuel after
      | none => c :: jsStripParenLabelsF fuel rest
    | none => c :: jsStripParenLabelsF fuel rest

/-- The label-removal pass, with its fuel instantiated. -/
def jsStripParenLabels (l : List Char) : List Char := jsStripParenLabelsF l.length l

/-- Decimal digit test (JS `\d`). -/
def jsIsDigit (c : Char) : Bool := '0' ≤ c && c ≤ '9'

/-- The regex `^\d{3}-\d{3}-\d{3}-\d{3}$`. -/
def tinDashedFormat (s : String) : Bool :=
  match s.data with
  | [a, b, c, d1, d, e, f, d2, g, h, i, d3, j, k, l] =>
    jsIsDigit a && jsIsDigit b && jsIsDigit c && d1 = '-' &&
    jsIsDigit d && jsIsDigit e && jsIsDigit f && d2 = '-' &&
    jsIsDigit g && jsIsDigit h && jsIsDigit i && d3 = '-' &&
    jsIsDigit j && jsIsDigit k && jsIsDigit l
  | _ => false

/-- The regex `^(\d{3}-\d{3}-\d{3}-\d{3}|\d{9,12})$`. -/
def tinPattern (s : String) : Bool :=
  tinDashedFormat s ||
  (s.data.all jsIsDigit && decide (9 ≤ s.data.length) && decide (s.data.length ≤ 12))

/-- Numeric value of a digit character. -/
def digitVal (c : Char) : ℤ := (c.toNat : ℤ) - ('0'.toNat : ℤ)

/-- Model of `new Date(s)` restricted to the `YYYY-MM-DD` format the system
mandates; the result is an order-preserving integer encoding (months are
padded to 31 days, years to 372, so the encoding is monotone in the
calendar order for all well-formed dates).  Any other string yields `none`,
the invalid date whose comparisons are all false in JS. -/
def jsParseDate (s : String) : Option ℤ :=
  match s.data with
  | [y1, y2, y3, y4, h1, m1, m2, h2, d1, d2] =>
    if jsIsDigit y1 && jsIsDigit y2 && jsIsDigit y3 && jsIsDigit y4 &&
       h1 = '-' && jsIsDigit m1 && jsIsDigit m2 && h2 = '-' &&
       jsIsDigit d1 && jsIsDigit d2 then
      let y := digitVal y1 * 1000 + digitVal y2 * 100 + digitVal y3 * 10 + digitVal y4
      let m := digitVal m1 * 10 + digitVal m2
      let d := digitVal d1 * 10 + digitVal d2
      if 1 ≤ m && m ≤ 12 && 1 ≤ d && d ≤ 31 then
        some (y * 372 + (m - 1) * 31 + (d - 1))
      else none
    else none
  | _ => none

/-- One year before `today` in the date encoding
(`oneYearAgo.setFullYear(today.getFullYear() - 1)`). -/
def jsOneYearAgo (today : ℤ) : ℤ := today - 372

/-- JS truthiness of an optional boolean (`undefined`/`false` are falsy). -/
def jsTruthyOB (o : Option Bool) : Bool := o.getD false

/-- JS truthiness of an optional number (`undefined`/`null`/`0` are falsy). -/
def jsTruthyON (o : Option ℚ) : Bool :=
  match o with
  | some q => decide (q ≠ 0)
  | none => false

/-- JS truthiness of an optional string (`undefined`/`null`/`""` are falsy). -/
def jsTruthyOS (o : Option String) : Bool :=
  match o with
  | some s => decide (s ≠ "")
  | none => false

/-! ## BIR compliance service: data model (`bir-compliance.service.ts`) -/

/-- Error severity (`'critical' | 'major' | 'minor'`). -/
inductive Severity
  | critical
  | major
  | minor
deriving DecidableEq, Repr

/-- `BIRComplianceError`. -/
structure BIRComplianceError where
  field : String
  message : String
  severity : Severity
  birRequirement : String
deriving DecidableEq, Repr

/-- `BIRComplianceWarning`. -/
structure BIRComplianceWarning where
  field : String
  message : String
  suggestion : Option String := none
  birGuideline : Option String := none
deriving DecidableEq, Repr

/-- A line item of `BIRInvoiceDataSchema.line_items` (all four members are
mandatory numbers/strings in the zod schema). -/
structure BIRLineItem where
  quantity : ℚ
  unit_cost : ℚ
  description : String
  line_total : ℚ
deriving DecidableEq, Repr

/-- `document_control_type: z.enum(['manual', 'system']).nullable()`. -/
inductive DocControlType
  | manual
  | system
deriving DecidableEq, Repr

/-- `vat_registration_status: z.enum(['vat_registered', 'non_vat_registered'])`. -/
inductive VatRegStatus
  | vat_registered
  | non_vat_registered
deriving DecidableEq, Repr

/-- The record produced by `BIRInvoiceDataSchema.parse`.  Nullable and
optional zod members are `Option`s (see the module header for the
`null`/`undefined` collapse). -/
structure BIRInvoiceData where
  seller_registered_name : Option String := none
  seller_tin : Option String := none
  seller_address : Option String := none
  invoice_word_present : Option Bool := none
  transaction_date : Option String := none
  buyer_registered_name : Option String := none
  buyer_address : Option String := none
  buyer_tin : Option String := none
  serial_number : Option String := none
  total_amount : Option ℚ := none
  line_items : Option (List BIRLineItem) := none
  document_control_type : Option DocControlType := none
  atp_ocn_number : Option String := none
  ptu_accn_number : Option String := none
  vat_registration_status : Option VatRegStatus := none
  vat_exempt_statement : Option Bool := none
  sales_subject_to_percentage_tax : Option ℚ := none
  exempt_sales : Option ℚ := none
  vatable_sales : Option ℚ := none
  vat_amount : Option ℚ := none
  zero_rated_sales : Option ℚ := none
  vat_exempt_sales : Option ℚ := none
  vat_exempt_indicator : Option Bool := none
  zero_rated_indicator : Option Bool := none
  invoice_number : Option String := none
  invoice_date : Option String := none
  vendor_name : Option String := none
  vendor_address : Option String := none
  vendor_tin : Option String := none
  customer_name : Option String := none
  customer_address : Option String := none
  customer_tin : Option String := none
deriving DecidableEq, Repr

/-- Runtime value of `validatedData[rule.field]`: a dynamic field access on
the parsed record.  `vundefined` is JS `undefined`, returned for a property the
schema does not produce. -/
inductive BIRFieldVal
  | vstr (v : Option String)
  | vnum (v : Option ℚ)
  | vbool (v : Option Bool)
  | vitems (v : Option (List BIRLineItem))
  | vctrl (v : Option DocControlType)
  | vvat (v : Option VatRegStatus)
  | vundefined
deriving DecidableEq, Repr

/-- Dynamic property access `validatedData[rule.field as keyof BIRInvoiceData]`. -/
def getBIRField (d : BIRInvoiceData) : String → BIRFieldVal
  | "seller_registered_name" => .vstr d.seller_registered_name
  | "seller_tin" => .vstr d.seller_tin
  | "seller_address" => .vstr d.seller_address
  | "invoice_word_present" => .vbool d.invoice_word_present
  | "transaction_date" => .vstr d.transaction_date
  | "buyer_registered_name" => .vstr d.buyer_registered_name
  | "buyer_address" => .vstr d.buyer_address
  | "buyer_tin" => .vstr d.buyer_tin
  | "serial_number" => .vstr d.serial_number
  | "total_amount" => .vnum d.total_amount
  | "line_items" => .vitems d.line_items
  | "document_control_type" => .vctrl d.document_control_type
  | "atp_ocn_number" => .vstr d.atp_ocn_number
  | "ptu_accn_number" => .vstr d.ptu_accn_number
  | "vat_registration_status" => .vvat d.vat_registration_status
  | "vat_exempt_statement" => .vbool d.vat_exempt_statement
  | "sales_subject_to_percentage_tax" => .vnum d.sales_subject_to_percentage_tax
  | "exempt_sales" => .vnum d.exempt_sales
  | "vatable_sales" => .vnum d.vatable_sales
  | "vat_amount" => .vnum d.vat_amount
  | "zero_rated_sales" => .vnum d.zero_rated_sales
  | "vat_exempt_sales" => .vnum d.vat_exempt_sales
  | "vat_exempt_indicator" => .vbool d.vat_exempt_indicator
  | "zero_rated_indicator" => .vbool d.zero_rated_indicator
  | "invoice_number" => .vstr d.invoice_number
  | "invoice_date" => .vstr d.invoice_date
  | "vendor_name" => .vstr d.vendor_name
  | "vendor_address" => .vstr d.vendor_address
  | "vendor_tin" => .vstr d.vendor_tin
  | "customer_name" => .vstr d.customer_name
  | "customer_address" => .vstr d.customer_address
  | "customer_tin" => .vstr d.customer_tin
  | _ => .vundefined

/-- JS truthiness of a field value (used where the source writes `!value`
or `value && ...` on a dynamically accessed field). -/
def birValPresent : BIRFieldVal → Bool
  | .vstr o => o.isSome
  | .vnum o => o.isSome
  | .vbool o => o.isSome
  | .vitems o => o.isSome
  | .vctrl o => o.isSome
  | .vvat o => o.isSome
  | .vundefined => false

/-- `BIRComplianceRule`. -/
structure BIRComplianceRule where
  field : String
  required : Bool
  validator : Option (BIRFieldVal → Bool) := none
  errorMessage : String
  weight : ℚ

/-- `BIRComplianceRuleSet`. -/
structure BIRComplianceRuleSet where
  name : String
  description : String
  rules : List BIRComplianceRule
  minimumScore : ℤ

/-! ### Predefined BIR compliance rule sets (`BIR_COMPLIANCE_RULE_SETS`) -/

/-- `(value: string | null) => value !== null && value.trim().length > 0`. -/
def vNonEmptyString : BIRFieldVal → Bool
  | .vstr (some s) => decide (0 < (jsTrim s).length)
  | _ => false

/-- The TIN validator of the official rule set: strip parenthesised
labels and whitespace, then test `^(\d{3}-\d{3}-\d{3}-\d{3}|\d{9,12})$`. -/
def vBirTin : BIRFieldVal → Bool
  | .vstr (some s) =>
    !decide (s = "") && tinPattern (jsStripSpaces ⟨jsStripParenLabels s.data⟩)
  | _ => false

/-- `(value: boolean) => value === true`. -/
def vIsTrue (v : BIRFieldVal) : Bool := decide (v = .vbool (some true))

/-- `value !== null && !isNaN(new Date(value).getTime())`. -/
def vValidDate : BIRFieldVal → Bool
  | .vstr (some s) => !decide (s = "") && (jsParseDate s).isSome
  | _ => false

/-- `(value: number | null) => value !== null && value > 0`. -/
def vPositiveNumber : BIRFieldVal → Bool
  | .vnum (some q) => decide (0 < q)
  | _ => false

/-- `(value: string | null) => value === 'manual' || value === 'system'`. -/
def vManualOrSystem : BIRFieldVal → Bool
  | .vctrl (some _) => true
  | _ => false

/-- `(value: string | null) => value === 'vat_registered' || value === 'non_vat_registered'`. -/
def vVatStatusPresent : BIRFieldVal → Bool
  | .vvat (some _) => true
  | _ => false

/-- `(value: number | null) => value === null || value >= 0`. -/
def vNullOrNonneg : BIRFieldVal → Bool
  | .vnum none => true
  | .vnum (some q) => decide (0 ≤ q)
  | _ => false

/-- `(value: number | null) => value !== null && value >= 0`. -/
def vNonnegNumber : BIRFieldVal → Bool
  | .vnum (some q) => decide (0 ≤ q)
  | _ => false

/-- Characters matched by `[A-Z0-9-]`. -/
def govSerialChar (c : Char) : Bool :=
  ('A' ≤ c && c ≤ 'Z') || jsIsDigit c || c = '-'

/-- Government serial validator: `value.trim().length >= 8 && /^[A-Z0-9-]+$/.test(value)`. -/
def vGovSerial : BIRFieldVal → Bool
  | .vstr (some s) =>
    !decide (s = "") && decide (8 ≤ (jsTrim s).length) && s.data.all govSerialChar
  | _ => false

/-- Government buyer-TIN validator: `^\d{3}-\d{3}-\d{3}-\d{3}$` on
`value.replace(whitespace, "")`. -/
def vGovTin : BIRFieldVal → Bool
  | .vstr (some s) => !decide (s = "") && tinDashedFormat (jsStripSpaces s)
  | _ => false

/-- The `'official_bir_compliance'` rule set. -/
def officialBirCompliance : BIRComplianceRuleSet where
  name := "Official BIR Compliance"
  description := "Official BIR compliance validation based on BIR regulations"
  minimumScore := 90
  rules := [
    { field := "seller_registered_name", required := true, validator := some vNonEmptyString,
      errorMessage := "Seller’s Registered Name (as per BIR Certificate of Registration) is required",
      weight := 10 },
    { field := "seller_tin", required := true, validator := some vBirTin,
      errorMessage := "Seller’s TIN with Branch Code is required for BIR compliance",
      weight := 10 },
    { field := "seller_address", required := true, validator := some vNonEmptyString,
      errorMessage := "Registered Business Address (seller) is required", weight := 8 },
    { field := "invoice_word_present", required := true, validator := some vIsTrue,
      errorMessage := "Word Invoice or Billing Invoice must be printed/stamped clearly",
      weight := 7 },
    { field := "transaction_date", required := true, validator := some vValidDate,
      errorMessage := "Date of Transaction is required", weight := 9 },
    { field := "buyer_registered_name", required := true, validator := some vNonEmptyString,
      errorMessage := "Buyer’s Registered Name is required", weight := 8 },
    { field := "buyer_address", required := true, validator := some vNonEmptyString,
      errorMessage := "Buyer’s Address is required", weight := 6 },
    { field := "buyer_tin", required := true, validator := some vBirTin,
      errorMessage := "Buyer’s TIN is required", weight := 8 },
    { field := "serial_number", required := true, validator := some vNonEmptyString,
      errorMessage := "Serial Number (unique, sequential, and printed clearly) is required",
      weight := 9 },
    { field := "total_amount", required := true, validator := some vPositiveNumber,
      errorMessage := "Total Amount of Sale (gross amount) is required", weight := 10 },
    { field := "document_control_type", required := true, validator := some vManualOrSystem,
      errorMessage := "Document Control Info (ATP/OCN for manual, PTU/ACCN for system-generated) is required",
      weight := 10 },
    { field := "vat_registration_status", required := true, validator := some vVatStatusPresent,
      errorMessage := "VAT Registration Status must be specified (VAT-registered or Non-VAT registered)",
      weight := 10 }
  ]

/-- The `'vat_registered_bir_compliance'` rule set. -/
def vatRegisteredBirCompliance : BIRComplianceRuleSet where
  name := "VAT-Registered BIR Compliance"
  description := "BIR compliance for VAT-registered businesses"
  minimumScore := 90
  rules := [
    { field := "vat_registration_status", required := true,
      validator := some (fun v => decide (v = .vvat (some .vat_registered))),
      errorMessage := "Must be VAT-registered for this validation", weight := 10 },
    { field := "vat_exempt_statement", required := true, validator := some vIsTrue,
      errorMessage := "Must state EXEMPT on the face of the invoice for VAT-registered businesses",
      weight := 9 },
    { field := "sales_subject_to_percentage_tax", required := false,
      validator := some vNullOrNonneg,
      errorMessage := "Sales Subject to Percentage Tax (SSPT) must be valid if applicable",
      weight := 6 },
    { field := "exempt_sales", required := false, validator := some vNullOrNonneg,
      errorMessage := "Exempt Sales must be valid if applicable", weight := 6 }
  ]

/-- The `'non_vat_registered_bir_compliance'` rule set. -/
def nonVatRegisteredBirCompliance : BIRComplianceRuleSet where
  name := "Non-VAT Registered BIR Compliance"
  description := "BIR compliance for Non-VAT registered businesses"
  minimumScore := 90
  rules := [
    { field := "vat_registration_status", required := true,
      validator := some (fun v => decide (v = .vvat (some .non_vat_registered))),
      errorMessage := "Must be Non-VAT registered for this validation", weight := 10 },
    { field := "vat_amount", required := true, validator := some vNonnegNumber,
      errorMessage := "VAT amount must be shown as a separate line item for Non-VAT registered businesses",
      weight := 9 },
    { field := "vatable_sales", required := false, validator := some vNullOrNonneg,
      errorMessage := "VATable Sales must be valid if applicable", weight := 7 },
    { field := "zero_rated_sales", required := false, validator := some vNullOrNonneg,
      errorMessage := "Zero-Rated Sales must be valid if applicable", weight := 6 },
    { field := "vat_exempt_sales", required := false, validator := some vNullOrNonneg,
      errorMessage := "VAT-Exempt Sales must be valid if applicable", weight := 6 }
  ]

/-- The `'government_bir_compliance'` rule set. -/
def governmentBirCompliance : BIRComplianceRuleSet where
  name := "Government BIR Compliance"
  description := "Strict BIR compliance for government transactions"
  minimumScore := 95
  rules := [
    { field := "serial_number", required := true, validator := some vGovSerial,
      errorMessage := "Government invoice serial number must be at least 8 characters with proper format",
      weight := 10 },
    { field := "document_control_type", required := true,
      validator := some (fun v => decide (v = .vctrl (some .system))),
      errorMessage := "Government transactions should use system-generated invoices (PTU/ACCN)",
      weight := 10 },
    { field := "buyer_tin", required := true, validator := some vGovTin,
      errorMessage := "Government buyer TIN must be in exact XXX-XXX-XXX-XXX format",
      weight := 10 }
  ]

/-- The `BIR_COMPLIANCE_RULE_SETS` record, as a name-indexed lookup. -/
def BIR_COMPLIANCE_RULE_SETS (name : String) : Option BIRComplianceRuleSet :=
  if name = "official_bir_compliance" then some officialBirCompliance
  else if name = "vat_registered_bir_compliance" then some vatRegisteredBirCompliance
  else if name = "non_vat_registered_bir_compliance" then some nonVatRegisteredBirCompliance
  else if name = "government_bir_compliance" then some governmentBirCompliance
  else none

/-! ### Line-item completeness checker (`validateLineItemsCompleteness`) -/

/-- One entry of `incompleteItems`. -/
structure IncompleteItem where
  index : ℕ
  missingFields : List String
deriving DecidableEq, Repr

/-- The return shape of `validateLineItemsCompleteness`. -/
structure LineItemsCompleteness where
  totalItems : ℕ
  completeItems : ℕ
  incompleteItems : List IncompleteItem
deriving DecidableEq, Repr

/-- The `missingFields` computed for a single line item.  Over exact
rationals the JS test `!item[f] || item[f] <= 0` on a number is `f ≤ 0`,
and `!item[f] || item[f].trim().length === 0` on a string is the stated
disjunction.  The `accurate_calculation` entry is guarded by the JS
truthiness conjunction `item.quantity && item.unit_cost && item.line_total`
(all three nonzero). -/
def lineItemMissingFields (item : BIRLineItem) : List String :=
  (if item.quantity ≤ 0 then ["quantity"] else []) ++
  (if item.unit_cost ≤ 0 then ["unit_cost"] else []) ++
  (if item.description = "" ∨ jsTrim item.description = "" then ["description"] else []) ++
  (if item.line_total ≤ 0 then ["line_total"] else []) ++
  (if item.quantity ≠ 0 ∧ item.unit_cost ≠ 0 ∧ item.line_total ≠ 0 ∧
      |item.line_total - item.quantity * item.unit_cost| > 1/100
   then ["accurate_calculation"] else [])

/-- The indexed `forEach` of `validateLineItemsCompleteness`, returning
`(completeItems, incompleteItems)`. -/
def licAux (i : ℕ) : List BIRLineItem → ℕ × List IncompleteItem
  | [] => (0, [])
  | item :: rest =>
    let missing := lineItemMissingFields item
    let prev := licAux (i + 1) rest
    if missing = [] then (prev.1 + 1, prev.2) else (prev.1, ⟨i, missing⟩ :: prev.2)

/-- `validateLineItemsCompleteness` of `bir-compliance.service.ts`. -/
def validateLineItemsCompleteness (lineItems : List BIRLineItem) : LineItemsCompleteness :=
  { totalItems := lineItems.length,
    completeItems := (licAux 0 lineItems).1,
    incompleteItems := (licAux 0 lineItems).2 }

/-! ### BIR business-rule validations (`performBIRBusinessRuleValidations`) -/

/-- The dynamic error-field name `line_items[i].<suffix>`. -/
def lineItemFieldName (i : ℕ) (suffix : String) : String :=
  "line_items[" ++ toString i ++ "]." ++ suffix

/-- The per-item `forEach` of the business-rule line-item block:
hard errors for quantity/unit cost/description, calculation-mismatch
warnings (the mismatch check is unguarded here, unlike the completeness
checker). -/
def bizLineItemChecks (i : ℕ) :
    List BIRLineItem → List BIRComplianceError × List BIRComplianceWarning
  | [] => ([], [])
  | item :: rest =>
    let es : List BIRComplianceError :=
      (if item.quantity ≤ 0 then
        [{ field := lineItemFieldName i "quantity",
           message := "Line item " ++ toString (i + 1) ++
             ": Quantity of goods/services is required and must be greater than 0",
           severity := .critical,
           birRequirement := "BIR requires quantity for all line items" }] else []) ++
      (if item.unit_cost ≤ 0 then
        [{ field := lineItemFieldName i "unit_cost",
           message := "Line item " ++ toString (i + 1) ++
             ": Unit Cost is required and must be greater than 0",
           severity := .critical,
           birRequirement := "BIR requires unit cost for all line items" }] else []) ++
      (if item.description = "" ∨ jsTrim item.description = "" then
        [{ field := lineItemFieldName i "description",
           message := "Line item " ++ toString (i + 1) ++
             ": Description/Nature of Goods or Services is required",
           severity := .critical,
           birRequirement := "BIR requires description for all line items" }] else [])
    let ws : List BIRComplianceWarning :=
      if |item.line_total - item.quantity * item.unit_cost| > 1/100 then
        [{ field := lineItemFieldName i "line_total",
           message := "Line item " ++ toString (i + 1) ++
             ": Line total calculation mismatch (Expected: " ++
             toString (item.quantity * item.unit_cost) ++ ", Actual: " ++
             toString item.line_total ++ ")",
           suggestion := some "Verify line total calculation: quantity × unit_cost",
           birGuideline := some "Accurate calculations are required for BIR compliance" }]
      else []
    let prev := bizLineItemChecks (i + 1) rest
    (es ++ prev.1, ws ++ prev.2)

/-- The VAT/Non-VAT mutual-exclusivity block of
`performBIRBusinessRuleValidations`. -/
def birVatExclusivityErrors (data : BIRInvoiceData) : List BIRComplianceError :=
  match data.vat_registration_status with
    | some .vat_registered =>
      -- `if (!data.vat_exempt_statement)`
      (if jsTruthyOB data.vat_exempt_statement then [] else
        [{ field := "vat_exempt_statement",
           message := "VAT-registered invoices must state EXEMPT on the face of the invoice",
           severity := .critical,
           birRequirement := "BIR requires EXEMPT statement for VAT-registered businesses" }]) ++
      -- `if (data.vat_amount && data.vat_amount > 0)`
      (match data.vat_amount with
        | some v =>
          if v ≠ 0 ∧ 0 < v then
            [{ field := "vat_amount",
               message := "VAT-registered invoices cannot show VAT amount as separate line item",
               severity := .critical,
               birRequirement := "Invoice cannot have both VAT & Non-VAT fields" }]
          else []
        | none => [])
    | some .non_vat_registered =>
      -- `if (!data.vat_amount && data.vat_amount !== 0)`: true exactly for a
      -- missing field (`0` is falsy but equal to `0`).
      (match data.vat_amount with
        | none =>
          [{ field := "vat_amount",
             message := "Non-VAT registered invoices must show VAT amount as a separate line item",
             severity := .critical,
             birRequirement := "BIR requires VAT amount breakdown for Non-VAT registered businesses" }]
        | some _ => []) ++
      -- `if (data.vat_exempt_statement)`
      (if jsTruthyOB data.vat_exempt_statement then
        [{ field := "vat_exempt_statement",
           message := "Non-VAT registered invoices should not have EXEMPT statement",
           severity := .critical,
           birRequirement := "Invoice cannot have both VAT & Non-VAT fields" }]
       else [])
    | none => []

/-- The document-control block of `performBIRBusinessRuleValidations`. -/
def birDocControlErrors (data : BIRInvoiceData) : List BIRComplianceError :=
  match data.document_control_type with
    | some .manual =>
      if jsTruthyOS data.atp_ocn_number then [] else
        [{ field := "atp_ocn_number",
           message := "Manual invoices must have ATP/OCN number",
           severity := .critical,
           birRequirement := "Document Control Info (ATP/OCN) is mandatory for manual invoices" }]
    | some .system =>
      if jsTruthyOS data.ptu_accn_number then [] else
        [{ field := "ptu_accn_number",
           message := "System-generated invoices must have PTU/ACCN number",
           severity := .critical,
           birRequirement := "Document Control Info (PTU/ACCN) is mandatory for system-generated invoices" }]
    | none => []

/-- The line-item block of `performBIRBusinessRuleValidations`. -/
def birLineItemsBizBlock (data : BIRInvoiceData) :
    List BIRComplianceError × List BIRComplianceWarning :=
  match data.line_items with
    | some items =>
      if items.isEmpty then
        ([{ field := "line_items",
            message := "At least one line item with quantity, unit cost, and description is required",
            severity := .critical,
            birRequirement := "BIR requires detailed line items for all invoices" }], [])
      else bizLineItemChecks 0 items
    | none =>
      ([{ field := "line_items",
          message := "At least one line item with quantity, unit cost, and description is required",
          severity := .critical,
          birRequirement := "BIR requires detailed line items for all invoices" }], [])

/-- `performBIRBusinessRuleValidations` of `bir-compliance.service.ts`:
the three blocks above, in source push order. -/
def performBIRBusinessRuleValidations (data : BIRInvoiceData) :
    List BIRComplianceError × List BIRComplianceWarning :=
  (birVatExclusivityErrors data ++ birDocControlErrors data ++
    (birLineItemsBizBlock data).1,
   (birLineItemsBizBlock data).2)

/-! ### Additional BIR-specific validations (`performBIRSpecificValidations`) -/

/-- JS `String.prototype.includes`. -/
def jsIncludes (s pat : String) : Bool :=
  s.data.tails.any (fun t => pat.data.isPrefixOf t)

/-- `performBIRSpecificValidations` of `bir-compliance.service.ts`.
Only the future-transaction-date check produces an error; everything else
is a warning. -/
def performBIRSpecificValidations (today : ℤ) (data : BIRInvoiceData) :
    List BIRComplianceError × List BIRComplianceWarning :=
  let sellerTinWarnings : List BIRComplianceWarning :=
    match data.seller_tin with
    | some tin =>
      if tin = "" then [] else
        (if (jsStripSpacesDashes tin).data.length < 9 ∨
            12 < (jsStripSpacesDashes tin).data.length then
          [{ field := "seller_tin",
             message := "Seller TIN length may not comply with BIR standards",
             suggestion := some "Verify TIN format with BIR guidelines",
             birGuideline := some "TIN should be 9-12 digits in XXX-XXX-XXX-XXX format with Branch Code" }]
         else []) ++
        (if data.vat_registration_status = some .vat_registered ∧ ¬(jsIncludes tin "VAT" = true) then
          [{ field := "seller_tin",
             message := "VAT-registered seller should have VAT label with TIN",
             suggestion := some "Include VAT registration indicator with TIN",
             birGuideline := some "TIN should include VAT or Non-VAT label as applicable" }]
         else if data.vat_registration_status = some .non_vat_registered ∧
                 ¬(jsIncludes tin "Non-VAT" = true) then
          [{ field := "seller_tin",
             message := "Non-VAT registered seller should have Non-VAT label with TIN",
             suggestion := some "Include Non-VAT registration indicator with TIN",
             birGuideline := some "TIN should include VAT or Non-VAT label as applicable" }]
         else [])
    | none => []
  let buyerTinWarnings : List BIRComplianceWarning :=
    match data.buyer_tin with
    | some tin =>
      if tin = "" then [] else
        if (jsStripSpacesDashes tin).data.length < 9 ∨
           12 < (jsStripSpacesDashes tin).data.length then
          [{ field := "buyer_tin",
             message := "Buyer TIN length may not comply with BIR standards",
             suggestion := some "Verify TIN format with BIR guidelines",
             birGuideline := some "TIN should be 9-12 digits in XXX-XXX-XXX-XXX format" }]
        else []
    | none => []
  let dateChecks : List BIRComplianceError × List BIRComplianceWarning :=
    match data.transaction_date with
    | some ds =>
      match jsParseDate ds with
      | some t =>
        if today < t then
          ([{ field := "transaction_date",
              message := "Transaction date cannot be in the future",
              severity := .critical,
              birRequirement := "BIR requires valid historical transaction dates" }], [])
        else if t < jsOneYearAgo today then
          ([], [{ field := "transaction_date",
                  message := "Transaction date is more than one year old",
                  suggestion := some "Verify if this is a current transaction",
                  birGuideline := some "Old invoices may require additional BIR documentation" }])
        else ([], [])
      | none => ([], [])  -- invalid date: both NaN comparisons are false
    | none => ([], [])
  let amountWarnings : List BIRComplianceWarning :=
    match data.total_amount with
    | some amt =>
      -- `if (data.total_amount && data.total_amount > 1000000)`
      if amt ≠ 0 ∧ 1000000 < amt then
        [{ field := "total_amount",
           message := "High-value transaction detected (over ₱1M)",
           suggestion := some "Ensure proper documentation for large transactions",
           birGuideline := some "Large transactions may require additional BIR reporting and documentation" }]
      else []
    | none => []
  let serialWarnings : List BIRComplianceWarning :=
    match data.serial_number with
    | some sn =>
      if sn = "" then [] else
        if sn.data.any jsIsDigit then [] else
          [{ field := "serial_number",
             message := "Serial number should contain numeric sequence",
             suggestion := some "Ensure serial number follows sequential numbering system",
             birGuideline := some "Serial numbers must be unique and sequential" }]
    | none => []
  let vatCalcWarnings : List BIRComplianceWarning :=
    -- `if (status === 'non_vat_registered' && data.vatable_sales && data.vat_amount)`
    if data.vat_registration_status = some .non_vat_registered ∧
       jsTruthyON data.vatable_sales = true ∧ jsTruthyON data.vat_amount = true then
      let expectedVat : ℚ := (jround (data.vatable_sales.getD 0 * (12/100) * 100) : ℚ) / 100
      let actualVat : ℚ := data.vat_amount.getD 0
      if |expectedVat - actualVat| > 1 then
        [{ field := "vat_amount",
           message := "VAT calculation mismatch. Expected: ₱" ++ toString expectedVat ++
             ", Actual: ₱" ++ toString actualVat,
           suggestion := some "Verify VAT calculation: vatable_sales × 12%",
           birGuideline := some "Accurate VAT calculations are required for BIR compliance" }]
      else []
    else []
  (dateChecks.1,
   sellerTinWarnings ++ buyerTinWarnings ++ dateChecks.2 ++ amountWarnings ++
     serialWarnings ++ vatCalcWarnings)

/-! ### The BIR compliance validator (`validateBIRCompliance`) -/

/-- `generateBIRComplianceSummary`. -/
def generateBIRComplianceSummary (isCompliant : Bool) (errorCount warningCount : ℕ)
    (score : ℤ) (ruleSetName : String) (minimumScore : ℤ) : String :=
  if isCompliant then
    "✅ BIR COMPLIANT (" ++ toString score ++ "% complete) - Meets official BIR requirements using " ++
      ruleSetName ++ " standards. " ++
      (if 0 < warningCount then toString warningCount ++ " recommendations for optimization."
       else "Fully compliant with all BIR regulations.")
  else
    let complianceLevel :=
      if 80 ≤ score then "Nearly Compliant"
      else if 60 ≤ score then "Partially Compliant"
      else "Non-Compliant"
    "❌ BIR " ++ complianceLevel.toUpper ++ " - " ++ toString errorCount ++
      " critical violations and " ++ toString warningCount ++ " warnings (" ++
      toString score ++ "% complete, minimum required: " ++ toString minimumScore ++
      "%) using " ++ ruleSetName ++ " standards. Review General Requirements, Document Control, and VAT/Non-VAT compliance."

/-- One entry of the `requiredFields` completeness report. -/
structure ReqFieldEntry where
  field : String
  present : Bool
  value : BIRFieldVal
deriving DecidableEq, Repr

/-- `FieldCompletenessReport`. -/
structure FieldCompletenessReport where
  requiredFields : List ReqFieldEntry
  lineItemsCompleteness : LineItemsCompleteness
  overallCompleteness : ℤ
deriving DecidableEq, Repr

/-- `BIRComplianceResult`. -/
structure BIRComplianceResult where
  isCompliant : Bool
  errors : List BIRComplianceError
  warnings : List BIRComplianceWarning
  score : ℤ
  summary : String
  fieldCompleteness : FieldCompletenessReport
deriving DecidableEq, Repr

/-- `rule.validator ? rule.validator(fieldValue) : (fieldValue !== null && fieldValue !== undefined)`. -/
def evalBIRRule (d : BIRInvoiceData) (r : BIRComplianceRule) : Bool :=
  match r.validator with
  | some f => f (getBIRField d r.field)
  | none => birValPresent (getBIRField d r.field)

/-- The `for (const rule of ruleSet.rules)` loop: returns
`(errors, requiredFields, totalWeight, achievedWeight)`.  Only rules with
`required == true` can push an error or accrue `achievedWeight`. -/
def birApplyRules (d : BIRInvoiceData) :
    List BIRComplianceRule → List BIRComplianceError × List ReqFieldEntry × ℚ × ℚ
  | [] => ([], [], 0, 0)
  | r :: rest =>
    let isFieldPresent := evalBIRRule d r
    let prev := birApplyRules d rest
    ((if r.required && !isFieldPresent then
        [{ field := r.field, message := r.errorMessage, severity := .critical,
           birRequirement := "BIR requires " ++ r.field ++ " for valid invoice documentation" }]
      else []) ++ prev.1,
     { field := r.field, present := isFieldPresent, value := getBIRField d r.field } :: prev.2.1,
     r.weight + prev.2.2.1,
     (if r.required && isFieldPresent then r.weight else 0) + prev.2.2.2)

/-- The line-items scoring block of `validateBIRCompliance`: returns
`(achieved line-item weight, hard errors, warnings)`.  Full 15 points when
every item is complete (and there is at least one), a hard error when there
are none, otherwise proportional partial credit plus a warning. -/
def birLineItemsBlock (lic : LineItemsCompleteness) :
    ℚ × List BIRComplianceError × List BIRComplianceWarning :=
  if lic.completeItems = lic.totalItems ∧ 0 < lic.totalItems then
    (15, [], [])
  else if lic.totalItems = 0 then
    (0,
     [{ field := "line_items", message := "Line items are required for BIR compliance",
        severity := .critical,
        birRequirement := "BIR requires detailed line items for invoice validation" }],
     [])
  else
    ((lic.completeItems : ℚ) / (lic.totalItems : ℚ) * 15,
     [],
     [{ field := "line_items",
        message := toString lic.incompleteItems.length ++ " line items are incomplete",
        suggestion := some "Ensure all line items have description, quantity, unit_price, and line_total",
        birGuideline := some "Complete line item details improve BIR compliance" }])

/-- The main path of `validateBIRCompliance` after a successful schema
parse, for a resolved rule set. -/
def validateBIRComplianceData (today : ℤ) (d : BIRInvoiceData)
    (ruleSet : BIRComplianceRuleSet) : BIRComplianceResult :=
  let loop := birApplyRules d ruleSet.rules
  let ruleErrors := loop.1
  let requiredFields := loop.2.1
  let lineItemsCompleteness := validateLineItemsCompleteness (d.line_items.getD [])
  let lineItemsWeight : ℚ := 15
  let totalWeight := loop.2.2.1 + lineItemsWeight
  let lineBlock := birLineItemsBlock lineItemsCompleteness
  let achievedWeight := loop.2.2.2 + lineBlock.1
  let biz := performBIRBusinessRuleValidations d
  let addl := performBIRSpecificValidations today d
  let errors := ruleErrors ++ lineBlock.2.1 ++ biz.1 ++ addl.1
  let warnings := lineBlock.2.2 ++ biz.2 ++ addl.2
  let score := jround (achievedWeight / totalWeight * 100)
  let isCompliant := decide (ruleSet.minimumScore ≤ score) && errors.isEmpty
  { isCompliant, errors, warnings, score,
    summary := generateBIRComplianceSummary isCompliant errors.length warnings.length
      score ruleSet.name ruleSet.minimumScore,
    fieldCompleteness :=
      { requiredFields, lineItemsCompleteness, overallCompleteness := score } }

/-- The result returned from the `ZodError` catch block (the issue list of
the concrete parse failure is abstracted into the fixed message prefix). -/
def birSchemaFailureResult : BIRComplianceResult where
  isCompliant := false
  errors := [{ field := "schema", message := "Invalid invoice data format",
               severity := .critical,
               birRequirement := "Valid data format is required for BIR processing" }]
  warnings := []
  score := 0
  summary := "Invoice data format validation failed"
  fieldCompleteness :=
    { requiredFields := [],
      lineItemsCompleteness := { totalItems := 0, completeItems := 0, incompleteItems := [] },
      overallCompleteness := 0 }

/-- `validateBIRCompliance(invoiceData, ruleSetName)`.  The input is the
outcome of `BIRInvoiceDataSchema.parse` (`none` = `ZodError`); an unknown
rule-set name throws, modelled as `none`. -/
def validateBIRCompliance (today : ℤ) (input : Option BIRInvoiceData)
    (ruleSetName : String) : Option BIRComplianceResult :=
  match input with
  | none => some birSchemaFailureResult
  | some d => (BIR_COMPLIANCE_RULE_SETS ruleSetName).map (validateBIRComplianceData today d)

/-! ## Document validation service (`document-validation.service.ts`) -/

/-- `ValidationError`. -/
structure ValidationError where
  field : String
  message : String
  severity : Severity
deriving DecidableEq, Repr

/-- `ValidationWarning`. -/
structure ValidationWarning where
  field : String
  message : String
  suggestion : Option String := none
deriving DecidableEq, Repr

/-- A line item of `InvoiceDataSchema.line_items` (note `unit_price`,
unlike the BIR schema's `unit_cost`). -/
structure InvLineItem where
  description : String
  quantity : ℚ
  unit_price : ℚ
  line_total : ℚ
deriving DecidableEq, Repr

/-- The record produced by `InvoiceDataSchema.parse`.  Every member is as
declared by the zod schema; in particular there is **no** `bir_atp`
member — zod strips unknown keys, so a `bir_atp` value in the raw
extraction does not survive parsing.  The opaque `rag_validation`
pass-through object is modelled as a unit. -/
structure InvoiceData where
  invoice_number : Option String := none
  invoice_date : Option String := none
  vendor_name : Option String := none
  vendor_address : Option String := none
  vendor_tin : Option String := none
  vendor_business_style : Option String := none
  customer_name : Option String := none
  customer_address : Option String := none
  customer_tin : Option String := none
  total_amount : Option ℚ := none
  due_date : Option String := none
  line_items : List InvLineItem := []
  subtotal : Option ℚ := none
  vatable_sales : Option ℚ := none
  vat_exempt_sales : Option ℚ := none
  zero_rated_sales : Option ℚ := none
  percentage_tax_sales : Option ℚ := none
  net_amount : Option ℚ := none
  vat_amount : Option ℚ := none
  currency : Option String := none
  invoice_type : Option String := none
  vat_status : Option String := none
  has_invoice_word : Bool := false
  has_serial_number : Bool := false
  has_qty_unit_desc : Bool := false
  has_vat_label : Bool := false
  has_exempt_label : Bool := false
  has_sales_breakdown : Bool := false
  document_control_type : Option String := none
  document_control_number : Option String := none
  document_control_date : Option String := none
  signature_present : Bool := false
  form_2307_attached : Bool := false
  form_2307_consistent : Option Bool := none
  rag_validation : Option Unit := none
deriving DecidableEq, Repr

/-- Runtime value of `validatedData[rule.field]` for the completeness
validator; `vundefined` is returned for any property the schema does not
produce (e.g. `bir_atp`). -/
inductive InvFieldVal
  | vstr (v : Option String)
  | vnum (v : Option ℚ)
  | vbool (v : Bool)
  | vobool (v : Option Bool)
  | vitems (v : List InvLineItem)
  | vundefined
deriving DecidableEq, Repr

/-- Dynamic property access `validatedData[rule.field as keyof InvoiceData]`. -/
def getInvField (d : InvoiceData) : String → InvFieldVal
  | "invoice_number" => .vstr d.invoice_number
  | "invoice_date" => .vstr d.invoice_date
  | "vendor_name" => .vstr d.vendor_name
  | "vendor_address" => .vstr d.vendor_address
  | "vendor_tin" => .vstr d.vendor_tin
  | "vendor_business_style" => .vstr d.vendor_business_style
  | "customer_name" => .vstr d.customer_name
  | "customer_address" => .vstr d.customer_address
  | "customer_tin" => .vstr d.customer_tin
  | "total_amount" => .vnum d.total_amount
  | "due_date" => .vstr d.due_date
  | "line_items" => .vitems d.line_items
  | "subtotal" => .vnum d.subtotal
  | "vatable_sales" => .vnum d.vatable_sales
  | "vat_exempt_sales" => .vnum d.vat_exempt_sales
  | "zero_rated_sales" => .vnum d.zero_rated_sales
  | "percentage_tax_sales" => .vnum d.percentage_tax_sales
  | "net_amount" => .vnum d.net_amount
  | "vat_amount" => .vnum d.vat_amount
  | "currency" => .vstr d.currency
  | "invoice_type" => .vstr d.invoice_type
  | "vat_status" => .vstr d.vat_status
  | "has_invoice_word" => .vbool d.has_invoice_word
  | "has_serial_number" => .vbool d.has_serial_number
  | "has_qty_unit_desc" => .vbool d.has_qty_unit_desc
  | "has_vat_label" => .vbool d.has_vat_label
  | "has_exempt_label" => .vbool d.has_exempt_label
  | "has_sales_breakdown" => .vbool d.has_sales_breakdown
  | "document_control_type" => .vstr d.document_control_type
  | "document_control_number" => .vstr d.document_control_number
  | "document_control_date" => .vstr d.document_control_date
  | "signature_present" => .vbool d.signature_present
  | "form_2307_attached" => .vbool d.form_2307_attached
  | "form_2307_consistent" => .vobool d.form_2307_consistent
  | _ => .vundefined

/-- `fieldValue !== null && fieldValue !== undefined` on a dynamic field. -/
def invValPresent : InvFieldVal → Bool
  | .vstr o => o.isSome
  | .vnum o => o.isSome
  | .vbool _ => true
  | .vobool o => o.isSome
  | .vitems _ => true
  | .vundefined => false

/-- `ValidationRule` (unweighted). -/
structure ValidationRule where
  field : String
  required : Bool
  validator : Option (InvFieldVal → Bool) := none
  errorMessage : String

/-- `ValidationRuleSet`. -/
structure ValidationRuleSet where
  name : String
  description : String
  rules : List ValidationRule

/-- `(value: boolean) => value === true` over a dynamic field (used for
`bir_atp`, `signature_present`, `form_2307_attached`, `form_2307_consistent`). -/
def wIsTrue (v : InvFieldVal) : Bool :=
  decide (v = .vbool true) || decide (v = .vobool (some true))

/-- `(value: string | null) => value !== null && value.trim().length > 0`. -/
def wNonEmptyString : InvFieldVal → Bool
  | .vstr (some s) => decide (0 < (jsTrim s).length)
  | _ => false

/-- The standard TIN validator: `^(\d{3}-\d{3}-\d{3}-\d{3}|\d{9,12})$` on
`value.replace(whitespace, "")`. -/
def wTin : InvFieldVal → Bool
  | .vstr (some s) => !decide (s = "") && tinPattern (jsStripSpaces s)
  | _ => false

/-- `(value: number | null) => value !== null && value > 0`. -/
def wPositiveNumber : InvFieldVal → Bool
  | .vnum (some q) => decide (0 < q)
  | _ => false

/-- The `vat_status` membership validator of the government rule set. -/
def wVatStatus : InvFieldVal → Bool
  | .vstr (some s) => decide (s ∈ ["vatable", "vat_exempt", "zero_rated", "non_vat"])
  | _ => false

/-- The `'bir_invoice'` rule set. -/
def birInvoiceRuleSet : ValidationRuleSet where
  name := "BIR 2307 Invoice Validation"
  description := "BIR 2307 existence validation for invoices"
  rules := [
    { field := "form_2307_attached", required := true, validator := some wIsTrue,
      errorMessage := "BIR Form 2307 is required" },
    { field := "form_2307_consistent", required := true, validator := some wIsTrue,
      errorMessage := "BIR Form 2307 contents must be aligned with invoice data." }
  ]

/-- The `'standard_invoice'` rule set.  Its first rule reads the field
`bir_atp`, which the parsed record does not possess. -/
def standardInvoiceRuleSet : ValidationRuleSet where
  name := "Standard Invoice Validation"
  description := "Basic validation for standard Philippine invoices"
  rules := [
    { field := "bir_atp", required := true, validator := some wIsTrue,
      errorMessage := "BIR Authority to Print (ATP) is required and must be present on the invoice" },
    { field := "signature_present", required := true, validator := some wIsTrue,
      errorMessage := "Authorized signature is required on the invoice" },
    { field := "invoice_number", required := true, validator := some wNonEmptyString,
      errorMessage := "Invoice number is required" },
    { field := "vendor_tin", required := true, validator := some wTin,
      errorMessage := "Valid vendor TIN is required (format: XXX-XXX-XXX-XXX)" },
    { field := "total_amount", required := true, validator := some wPositiveNumber,
      errorMessage := "Total amount must be greater than zero" }
  ]

/-- The `'government_invoice'` rule set. -/
def governmentInvoiceRuleSet : ValidationRuleSet where
  name := "Government Invoice Validation"
  description := "Enhanced validation for government-related invoices"
  rules := [
    { field := "bir_atp", required := true, validator := some wIsTrue,
      errorMessage := "BIR Authority to Print (ATP) is mandatory for government invoices" },
    { field := "signature_present", required := true, validator := some wIsTrue,
      errorMessage := "Authorized signature is mandatory for government invoices" },
    { field := "invoice_number", required := true, validator := some wNonEmptyString,
      errorMessage := "Invoice number is required" },
    { field := "vendor_tin", required := true, validator := some wTin,
      errorMessage := "Valid vendor TIN is required for government transactions" },
    { field := "customer_tin", required := true, validator := some wTin,
      errorMessage := "Customer TIN is required for government transactions" },
    { field := "vat_status", required := true, validator := some wVatStatus,
      errorMessage := "Valid VAT status is required (vatable, vat_exempt, zero_rated, or non_vat)" }
  ]

/-- The `'purchase_order_based'` rule set. -/
def purchaseOrderBasedRuleSet : ValidationRuleSet where
  name := "Purchase Order Based Validation"
  description := "Validation for invoices that require PO matching (future use case)"
  rules := [
    { field := "bir_atp", required := true, validator := some wIsTrue,
      errorMessage := "BIR Authority to Print (ATP) is required" },
    { field := "signature_present", required := true, validator := some wIsTrue,
      errorMessage := "Authorized signature is required" }
  ]

/-- The `VALIDATION_RULE_SETS` record, as a name-indexed lookup. -/
def VALIDATION_RULE_SETS (name : String) : Option ValidationRuleSet :=
  if name = "bir_invoice" then some birInvoiceRuleSet
  else if name = "standard_invoice" then some standardInvoiceRuleSet
  else if name = "government_invoice" then some governmentInvoiceRuleSet
  else if name = "purchase_order_based" then some purchaseOrderBasedRuleSet
  else none

/-! ### Additional validations and the completeness validator (`validateInvoiceData`) -/

/-- `performAdditionalValidations` of `document-validation.service.ts`.
The function never pushes an error — only warnings — so its error
component is literally `[]`. -/
def performAdditionalValidations (today : ℤ) (data : InvoiceData) :
    List ValidationError × List ValidationWarning :=
  let vatWarnings : List ValidationWarning :=
    -- `if (data.vat_status === 'vatable' && data.vatable_sales && data.vat_amount)`
    if data.vat_status = some "vatable" ∧ jsTruthyON data.vatable_sales = true ∧
       jsTruthyON data.vat_amount = true then
      let expectedVat : ℚ := (jround (data.vatable_sales.getD 0 * (12/100) * 100) : ℚ) / 100
      let actualVat : ℚ := data.vat_amount.getD 0
      if |expectedVat - actualVat| > 1 then
        [{ field := "vat_amount",
           message := "VAT calculation mismatch. Expected: ₱" ++ toString expectedVat ++
             ", Actual: ₱" ++ toString actualVat,
           suggestion := some "Verify VAT calculation: vatable_sales × 12%" }]
      else []
    else []
  let subtotalWarnings : List ValidationWarning :=
    -- `if (data.line_items && data.line_items.length > 0)`
    if data.line_items.isEmpty then [] else
      let calculatedSubtotal : ℚ := (data.line_items.map (fun it => it.line_total)).sum
      -- `if (data.subtotal && Math.abs(calculatedSubtotal - data.subtotal) > 1)`
      match data.subtotal with
      | some s =>
        if s ≠ 0 ∧ |calculatedSubtotal - s| > 1 then
          [{ field := "subtotal",
             message := "Subtotal mismatch. Calculated: ₱" ++ toString calculatedSubtotal ++
               ", Stated: ₱" ++ toString s,
             suggestion := some "Verify line item calculations" }]
        else []
      | none => []
  let dateWarnings : List ValidationWarning :=
    match data.invoice_date with
    | some ds =>
      match jsParseDate ds with
      | some t =>
        if today < t then
          [{ field := "invoice_date", message := "Invoice date is in the future",
             suggestion := some "Verify invoice date accuracy" }]
        else []
      | none => []  -- invalid date: NaN comparison is false
    | none => []
  ([], vatWarnings ++ subtotalWarnings ++ dateWarnings)

/-- `generateValidationSummary`. -/
def generateValidationSummary (isValid : Bool) (errorCount warningCount : ℕ)
    (score : ℤ) (ruleSetName : String) : String :=
  if isValid then
    "✅ Invoice validation passed (" ++ toString score ++ "% complete) using " ++
      ruleSetName ++ " rules. " ++
      (if 0 < warningCount then toString warningCount ++ " warnings found."
       else "No issues detected.")
  else
    "❌ Invoice validation failed with " ++ toString errorCount ++
      " critical errors and " ++ toString warningCount ++ " warnings (" ++
      toString score ++ "% complete) using " ++ ruleSetName ++ " rules."

/-- `ValidationResult`. -/
structure ValidationResult where
  isValid : Bool
  errors : List ValidationError
  warnings : List ValidationWarning
  score : ℤ
  summary : String
deriving DecidableEq, Repr

/-- Whether a rule passes on a record: `rule.validator(fieldValue)` when a
validator exists, else the null/undefined presence check. -/
def evalInvRule (d : InvoiceData) (r : ValidationRule) : Bool :=
  match r.validator with
  | some f => f (getInvField d r.field)
  | none => invValPresent (getInvField d r.field)

/-- The `for (const rule of ruleSet.rules)` loop of `validateInvoiceData`:
returns `(errors, passedRules)`.  Rules with `required == false` are
skipped entirely (they neither error nor count as passed). -/
def invApplyRules (d : InvoiceData) : List ValidationRule → List ValidationError × ℕ
  | [] => ([], 0)
  | r :: rest =>
    let hd : List ValidationError × ℕ :=
      if r.required then
        if evalInvRule d r then ([], 1)
        else ([{ field := r.field, message := r.errorMessage, severity := .critical }], 0)
      else ([], 0)
    let prev := invApplyRules d rest
    (hd.1 ++ prev.1, hd.2 + prev.2)

/-- The main path of `validateInvoiceData` after a successful schema parse,
for a resolved rule set. -/
def validateInvoiceDataWith (today : ℤ) (d : InvoiceData)
    (ruleSet : ValidationRuleSet) : ValidationResult :=
  let loop := invApplyRules d ruleSet.rules
  let totalRules := ruleSet.rules.length
  let addl := performAdditionalValidations today d
  let errors := loop.1 ++ addl.1
  let warnings := addl.2
  let score := jround ((loop.2 : ℚ) / (totalRules : ℚ) * 100)
  let isValid := errors.isEmpty
  { isValid, errors, warnings, score,
    summary := generateValidationSummary isValid errors.length warnings.length score ruleSet.name }

/-- The result returned from the `ZodError` catch block. -/
def invSchemaFailureResult : ValidationResult where
  isValid := false
  errors := [{ field := "schema", message := "Invalid invoice data format",
               severity := .critical }]
  warnings := []
  score := 0
  summary := "Invoice data format validation failed"

/-- `validateInvoiceData(invoiceData, ruleSetName)`.  The input is the
outcome of `InvoiceDataSchema.parse` (`none` = `ZodError`); an unknown
rule-set name makes the handler dereference `undefined` and throw,
modelled as `none`. -/
def validateInvoiceData (today : ℤ) (input : Option InvoiceData)
    (ruleSetName : String) : Option ValidationResult :=
  match input with
  | none => some invSchemaFailureResult
  | some d => (VALIDATION_RULE_SETS ruleSetName).map (validateInvoiceDataWith today d)

/-! ## Batch validation routes (`batch-validate.tsx`) -/

/-- Splitting into fixed-size concurrency chunks
(`for (let i = 0; i < n; i += concurrencyLimit)`). -/
def chunkList {α : Type} : ℕ → List α → List (List α)
  | _, [] => []
  | 0, _ => []
  | n + 1, a :: as => (a :: as).take (n + 1) :: chunkList (n + 1) ((a :: as).drop (n + 1))
termination_by _ l => l.length
decreasing_by
  simp
  omega

/-- The guard phase of the general batch-validation POST handler: the
request is rejected with an HTTP 400 before any document is touched when
the id array is missing/empty or exceeds 50; otherwise the ids are split
into chunks of 5 for processing. -/
def batchValidateGuard (documentIds : Option (List String)) :
    Except (ℕ × String) (List (List String)) :=
  match documentIds with
  | none => .error (400, "Document IDs array is required")
  | some ids =>
    if ids.isEmpty then .error (400, "Document IDs array is required")
    else if 50 < ids.length then
      .error (400, "Maximum 50 documents can be processed in a single batch")
    else .ok (chunkList 5 ids)

/-- The guard phase of the batch-BIR-compliance POST handler: cap 25,
chunks of 3. -/
def batchBirComplianceGuard (documentIds : Option (List String)) :
    Except (ℕ × String) (List (List String)) :=
  match documentIds with
  | none => .error (400, "Document IDs array is required")
  | some ids =>
    if ids.isEmpty then .error (400, "Document IDs array is required")
    else if 25 < ids.length then
      .error (400, "Maximum 25 documents can be processed in a single BIR compliance batch")
    else .ok (chunkList 3 ids)

/-! ## Invoice re-validation route (`/api/ai/invoice/$invoiceNo`, POST) -/

/-- The invoice row as read by the route handler.  `parsedData` is a raw
JSON blob that the handler feeds to both `InvoiceDataSchema.parse` (inside
`validateInvoiceData`) and `BIRInvoiceDataSchema.parse` (inside
`validateBIRCompliance`); the two members below are those two parse views
of the same blob. -/
structure InvoiceRow where
  attachmentValidationStatus : Option String := none
  birValidationStatus : Option String := none
  contractValidationStatus : Option String := none
  amountValidationStatus : Option String := none
  parsedDataDoc : Option InvoiceData := none
  parsedDataBir : Option BIRInvoiceData := none

/-- The RAG contract-validation verdict consumed by the handler
(`aiOutput.recommendations.action_required` and
`aiOutput.overall_amount_validation`). -/
structure RagRecommendations where
  action_required : String

/-- The parsed RAG output object. -/
structure RagValidationOutput where
  recommendations : RagRecommendations
  overall_amount_validation : String

/-- `statusForValidation.includes(status as string)` with
`statusForValidation = ['pending','failed']`. -/
def statusNeedsValidation (o : Option String) : Bool :=
  match o with
  | some s => s = "pending" || s = "failed"
  | none => false

/-- The POST handler of the re-validation route, reduced to its status
mutations.  `rag` is the (parsed) outcome of the external RAG call, `none`
meaning `formatTextToJson` failed; in that case the handler returns the
`AI Process Failed` response after the first block's updates have already
been persisted.  The returned row is the invoice as persisted; the second
component is the error message of an early non-success response, if any. -/
def revalidateInvoice (today : ℤ) (inv : InvoiceRow) (rag : Option RagValidationOutput) :
    InvoiceRow × Option String :=
  let cond1 := statusNeedsValidation inv.attachmentValidationStatus ||
               statusNeedsValidation inv.birValidationStatus
  let inv1 :=
    if cond1 then
      let documentValidationResult :=
        (validateInvoiceData today inv.parsedDataDoc "bir_invoice").getD invSchemaFailureResult
      let birComplianceResult :=
        (validateBIRCompliance today inv.parsedDataBir "official_bir_compliance").getD
          birSchemaFailureResult
      { inv with
        attachmentValidationStatus :=
          some (if documentValidationResult.isValid then "success" else "failed"),
        birValidationStatus :=
          some (if birComplianceResult.isCompliant then "success" else "failed") }
    else inv
  let cond2 := statusNeedsValidation inv.contractValidationStatus ||
               statusNeedsValidation inv.amountValidationStatus
  if cond2 then
    match rag with
    | none => (inv1, some "AI Process Failed")
    | some aiOutput =>
      ({ inv1 with
         contractValidationStatus :=
           some (if aiOutput.recommendations.action_required = "APPROVED"
                 then "success" else "failed"),
         amountValidationStatus :=
           some (if aiOutput.overall_amount_validation = "APPROVED"
                 then "success" else "failed") }, none)
  else (inv1, none)

/-! ## Specification-side formulas and basic lemmas -/

/-- Sum of the declared weights of a BIR rule set. -/
def birRuleWeightSum (rs : BIRComplianceRuleSet) : ℚ :=
  (rs.rules.map (fun r => r.weight)).sum

/-- Weight achieved by the rules: the sum of the weights of the rules with
`required == true` whose validator passes (what the code accrues). -/
def birRequiredAchievedWeight (d : BIRInvoiceData) (rs : BIRComplianceRuleSet) : ℚ :=
  (rs.rules.map (fun r => if r.required && evalBIRRule d r then r.weight else 0)).sum

/-- Weight achieved by the rules as the specification words it: the sum of
the weights of **all** rules whose validator passes, regardless of the
`required` flag.  Kept separate from `birRequiredAchievedWeight` for the
refinement comparison. -/
def specAllPassAchievedWeight (d : BIRInvoiceData) (rs : BIRComplianceRuleSet) : ℚ :=
  (rs.rules.map (fun r => if evalBIRRule d r then r.weight else 0)).sum

/-- The proportional line-item share of the fixed 15-point block, as the
specification words it: `(completeLineItems / totalLineItems) × 15`, `0`
for zero line items. -/
def birLineItemsShare (d : BIRInvoiceData) : ℚ :=
  let lic := validateLineItemsCompleteness (d.line_items.getD [])
  if lic.totalItems = 0 then 0
  else (lic.completeItems : ℚ) / (lic.totalItems : ℚ) * 15

lemma jround_le_jround {a b : ℚ} (h : a ≤ b) : jround a ≤ jround b := by
  unfold jround
  exact Int.floor_le_floor (by linarith)

lemma jround_intCast (n : ℤ) : jround (n : ℚ) = n := by
  unfold jround
  rw [add_comm, Int.floor_add_int]
  norm_num

lemma licAux_count (l : List BIRLineItem) :
    ∀ i, (licAux i l).1 + (licAux i l).2.length = l.length := by
  induction l with
  | nil => intro i; simp [licAux]
  | cons item rest ih =>
    intro i
    simp only [licAux, List.length_cons]
    split
    · have := ih (i + 1); simp; omega
    · have := ih (i + 1); simp; omega

lemma licAux_fst_le (l : List BIRLineItem) (i : ℕ) : (licAux i l).1 ≤ l.length := by
  have := licAux_count l i
  omega

lemma licAux_snd (l : List BIRLineItem) :
    ∀ i, (licAux i l).2 = (List.enumFrom i l).filterMap
      (fun p => if lineItemMissingFields p.2 = [] then none
                else some ⟨p.1, lineItemMissingFields p.2⟩) := by
  induction l with
  | nil => intro i; simp [licAux]
  | cons item rest ih =>
    intro i
    simp only [licAux, List.enumFrom_cons, List.filterMap_cons]
    split
    · next hm => simp [hm, ih (i + 1)]
    · next hm => simp [hm, ih (i + 1)]

lemma birLineItemsBlock_eq_share (d : BIRInvoiceData) :
    (birLineItemsBlock (validateLineItemsCompleteness (d.line_items.getD []))).1 =
      birLineItemsShare d := by
  unfold birLineItemsBlock birLineItemsShare
  set lic := validateLineItemsCompleteness (d.line_items.getD []) with hlic
  by_cases h1 : lic.completeItems = lic.totalItems ∧ 0 < lic.totalItems
  · rw [if_pos h1, if_neg (by omega)]
    have ht : (lic.totalItems : ℚ) ≠ 0 := by
      exact_mod_cast h1.2.ne'
    rw [h1.1, div_self ht, one_mul]
  · rw [if_neg h1]
    by_cases h2 : lic.totalItems = 0
    · rw [if_pos h2, if_pos h2]
    · rw [if_neg h2, if_neg h2]

lemma birLineItemsBlock_bounds (l : List BIRLineItem) :
    0 ≤ (birLineItemsBlock (validateLineItemsCompleteness l)).1 ∧
      (birLineItemsBlock (validateLineItemsCompleteness l)).1 ≤ 15 := by
  unfold birLineItemsBlock
  set lic := validateLineItemsCompleteness l with hlic
  have hle : lic.completeItems ≤ lic.totalItems := by
    rw [hlic]
    exact licAux_fst_le l 0
  by_cases h1 : lic.completeItems = lic.totalItems ∧ 0 < lic.totalItems
  · rw [if_pos h1]; norm_num
  · rw [if_neg h1]
    by_cases h2 : lic.totalItems = 0
    · rw [if_pos h2]; norm_num
    · rw [if_neg h2]
      have ht : (0 : ℚ) < (lic.totalItems : ℚ) := by
        exact_mod_cast Nat.pos_of_ne_zero h2
      constructor
      · positivity
      · have hr : (lic.completeItems : ℚ) / (lic.totalItems : ℚ) ≤ 1 := by
          rw [div_le_one ht]
          exact_mod_cast hle
        nlinarith

lemma birApplyRules_totalWeight (d : BIRInvoiceData) :
    ∀ rules : List BIRComplianceRule,
      (birApplyRules d rules).2.2.1 = (rules.map (fun r => r.weight)).sum
  | [] => by simp [birApplyRules]
  | r :: rest => by
    simp [birApplyRules, birApplyRules_totalWeight d rest]

lemma birApplyRules_achieved (d : BIRInvoiceData) :
    ∀ rules : List BIRComplianceRule,
      (birApplyRules d rules).2.2.2 =
        (rules.map (fun r => if r.required && evalBIRRule d r then r.weight else 0)).sum
  | [] => by simp [birApplyRules]
  | r :: rest => by
    simp [birApplyRules, birApplyRules_achieved d rest]

lemma birApplyRules_errors_nil {d : BIRInvoiceData} :
    ∀ {rules : List BIRComplianceRule},
      (∀ r ∈ rules, r.required = true → evalBIRRule d r = true) →
      (birApplyRules d rules).1 = []
  | [], _ => by simp [birApplyRules]
  | r :: rest, h => by
    have hr := h r (by simp)
    have hrest : (birApplyRules d rest).1 = [] :=
      birApplyRules_errors_nil (fun x hx => h x (by simp [hx]))
    simp only [birApplyRules, hrest]
    cases hreq : r.required with
    | false => simp
    | true => simp [hr hreq]

lemma invApplyRules_passed (d : InvoiceData) :
    ∀ rules : List ValidationRule,
      (invApplyRules d rules).2 = rules.countP (fun r => r.required && evalInvRule d r)
  | [] => by simp [invApplyRules]
  | r :: rest => by
    simp only [invApplyRules, List.countP_cons, invApplyRules_passed d rest]
    cases hreq : r.required with
    | false => simp
    | true =>
      cases hev : evalInvRule d r with
      | false => simp
      | true => simp; omega

lemma invApplyRules_errors_nil {d : InvoiceData} :
    ∀ {rules : List ValidationRule},
      (∀ r ∈ rules, r.required = true → evalInvRule d r = true) →
      (invApplyRules d rules).1 = []
  | [], _ => by simp [invApplyRules]
  | r :: rest, h => by
    have hr := h r (by simp)
    have hrest : (invApplyRules d rest).1 = [] :=
      invApplyRules_errors_nil (fun x hx => h x (by simp [hx]))
    simp only [invApplyRules, hrest]
    cases hreq : r.required with
    | false => simp
    | true => simp [hr hreq]

lemma validateBIRComplianceData_score_eq (today : ℤ) (d : BIRInvoiceData)
    (rs : BIRComplianceRuleSet) :
    (validateBIRComplianceData today d rs).score =
      jround ((birRequiredAchievedWeight d rs + birLineItemsShare d) /
        (birRuleWeightSum rs + 15) * 100) := by
  show jround (((birApplyRules d rs.rules).2.2.2 +
      (birLineItemsBlock (validateLineItemsCompleteness (d.line_items.getD []))).1) /
      ((birApplyRules d rs.rules).2.2.1 + 15) * 100) = _
  rw [birApplyRules_totalWeight, birApplyRules_achieved, birLineItemsBlock_eq_share]
  rfl

lemma validateBIRComplianceData_isCompliant_eq (today : ℤ) (d : BIRInvoiceData)
    (rs : BIRComplianceRuleSet) :
    (validateBIRComplianceData today d rs).isCompliant =
      (decide (rs.minimumScore ≤ (validateBIRComplianceData today d rs).score) &&
        (validateBIRComplianceData today d rs).errors.isEmpty) := rfl

lemma validateBIRComplianceData_errors_eq (today : ℤ) (d : BIRInvoiceData)
    (rs : BIRComplianceRuleSet) :
    (validateBIRComplianceData today d rs).errors =
      (birApplyRules d rs.rules).1 ++
      (birLineItemsBlock (validateLineItemsCompleteness (d.line_items.getD []))).2.1 ++
      (performBIRBusinessRuleValidations d).1 ++
      (performBIRSpecificValidations today d).1 := rfl

lemma vatSetAchieved_le (d : BIRInvoiceData) :
    birRequiredAchievedWeight d vatRegisteredBirCompliance ≤ 19 := by
  unfold birRequiredAchievedWeight vatRegisteredBirCompliance
  simp only [List.map_cons, List.map_nil, List.sum_cons, List.sum_nil]
  norm_num
  split_ifs <;> norm_num

lemma nonVatSetAchieved_le (d : BIRInvoiceData) :
    birRequiredAchievedWeight d nonVatRegisteredBirCompliance ≤ 19 := by
  unfold birRequiredAchievedWeight nonVatRegisteredBirCompliance
  simp only [List.map_cons, List.map_nil, List.sum_cons, List.sum_nil]
  norm_num
  split_ifs <;> norm_num

lemma birLineItemsShare_bounds (d : BIRInvoiceData) :
    0 ≤ birLineItemsShare d ∧ birLineItemsShare d ≤ 15 := by
  rw [← birLineItemsBlock_eq_share]
  exact birLineItemsBlock_bounds _

lemma vatSetScore_le (today : ℤ) (d : BIRInvoiceData) :
    (validateBIRComplianceData today d vatRegisteredBirCompliance).score ≤ 74 := by
  rw [validateBIRComplianceData_score_eq]
  have hw : birRuleWeightSum vatRegisteredBirCompliance = 31 := by
    norm_num [birRuleWeightSum, vatRegisteredBirCompliance]
  have ha := vatSetAchieved_le d
  have hs := birLineItemsShare_bounds d
  have hle : (birRequiredAchievedWeight d vatRegisteredBirCompliance + birLineItemsShare d) /
      (birRuleWeightSum vatRegisteredBirCompliance + 15) * 100 ≤ 3400 / 46 := by
    rw [hw]
    have h34 : birRequiredAchievedWeight d vatRegisteredBirCompliance +
        birLineItemsShare d ≤ 34 := by linarith
    nlinarith [h34]
  calc jround ((birRequiredAchievedWeight d vatRegisteredBirCompliance + birLineItemsShare d) /
        (birRuleWeightSum vatRegisteredBirCompliance + 15) * 100)
      ≤ jround (3400 / 46) := jround_le_jround hle
    _ = 74 := by norm_num [jround]

lemma nonVatSetScore_le (today : ℤ) (d : BIRInvoiceData) :
    (validateBIRComplianceData today d nonVatRegisteredBirCompliance).score ≤ 64 := by
  rw [validateBIRComplianceData_score_eq]
  have hw : birRuleWeightSum nonVatRegisteredBirCompliance = 38 := by
    norm_num [birRuleWeightSum, nonVatRegisteredBirCompliance]
  have ha := nonVatSetAchieved_le d
  have hs := birLineItemsShare_bounds d
  have hle : (birRequiredAchievedWeight d nonVatRegisteredBirCompliance + birLineItemsShare d) /
      (birRuleWeightSum nonVatRegisteredBirCompliance + 15) * 100 ≤ 3400 / 53 := by
    rw [hw]
    have h34 : birRequiredAchievedWeight d nonVatRegisteredBirCompliance +
        birLineItemsShare d ≤ 34 := by linarith
    nlinarith [h34]
  calc jround ((birRequiredAchievedWeight d nonVatRegisteredBirCompliance + birLineItemsShare d) /
        (birRuleWeightSum nonVatRegisteredBirCompliance + 15) * 100)
      ≤ jround (3400 / 53) := jround_le_jround hle
    _ = 64 := by norm_num [jround]

lemma birRequiredAchievedWeight_of_allpass {d : BIRInvoiceData} {rs : BIRComplianceRuleSet}
    (h : ∀ r ∈ rs.rules, evalBIRRule d r = true) :
    birRequiredAchievedWeight d rs =
      (rs.rules.map (fun r => if r.required then r.weight else 0)).sum := by
  unfold birRequiredAchievedWeight
  congr 1
  refine List.map_congr_left (fun r hr => ?_)
  rw [h r hr, Bool.and_true]

lemma specAllPassAchievedWeight_of_allpass {d : BIRInvoiceData} {rs : BIRComplianceRuleSet}
    (h : ∀ r ∈ rs.rules, evalBIRRule d r = true) :
    specAllPassAchievedWeight d rs = birRuleWeightSum rs := by
  unfold specAllPassAchievedWeight birRuleWeightSum
  congr 1
  refine List.map_congr_left (fun r hr => ?_)
  rw [h r hr, if_pos rfl]

/-! ## Claim theorems -/

/-- C3: for every input record (schema-valid or not), `validateBIRCompliance`
with rule set `vat_registered_bir_compliance` or
`non_vat_registered_bir_compliance` returns `isCompliant = false`: only the
required rules (weights 10 and 9) and the 15-point line-item block can ever
accrue weight, so the score is capped at 74 (vat) resp. 64 (non-vat),
strictly below the minimum score of 90. -/
theorem vatRuleSetsComplianceUnreachable_C3 (input : Option BIRInvoiceData) (today : ℤ) :
    (validateBIRCompliance today input "vat_registered_bir_compliance").map
        (fun r => r.isCompliant) = some false ∧
    (validateBIRCompliance today input "non_vat_registered_bir_compliance").map
        (fun r => r.isCompliant) = some false := by
  cases input with
  | none => exact ⟨rfl, rfl⟩
  | some d =>
    constructor
    · have hsc := vatSetScore_le today d
      have hno : ¬ (vatRegisteredBirCompliance.minimumScore ≤
          (validateBIRComplianceData today d vatRegisteredBirCompliance).score) := by
        have hm : vatRegisteredBirCompliance.minimumScore = 90 := rfl
        omega
      simp [validateBIRCompliance, BIR_COMPLIANCE_RULE_SETS,
        validateBIRComplianceData_isCompliant_eq, hno]
    · have hsc := nonVatSetScore_le today d
      have hno : ¬ (nonVatRegisteredBirCompliance.minimumScore ≤
          (validateBIRComplianceData today d nonVatRegisteredBirCompliance).score) := by
        have hm : nonVatRegisteredBirCompliance.minimumScore = 90 := rfl
        omega
      simp [validateBIRCompliance, BIR_COMPLIANCE_RULE_SETS,
        validateBIRComplianceData_isCompliant_eq, hno]

/-- C1 (amended): for every parsed record and every BIR rule set, the
compliance score is `round(100 × achievedWeight / totalWeight)` with
`totalWeight` the sum of the rule weights plus the fixed 15-point line-item
block, and `achievedWeight` the sum of the weights of the **required**
rules whose validator passes (rules with `required == false` count toward
`totalWeight` only) plus the proportional line-item share
`(completeLineItems / totalLineItems) × 15` (the full 15 when all items are
complete, 0 for zero line items); zero line items also raise a hard
critical error on `line_items`. -/
theorem birComplianceScoreFormula_C1 (today : ℤ) (d : BIRInvoiceData)
    (rs : BIRComplianceRuleSet) :
    (validateBIRComplianceData today d rs).score =
      jround (100 * (birRequiredAchievedWeight d rs + birLineItemsShare d) /
        (birRuleWeightSum rs + 15)) ∧
    (d.line_items.getD [] = [] →
      ∃ e ∈ (validateBIRComplianceData today d rs).errors,
        e.field = "line_items" ∧ e.severity = .critical) := by
  constructor
  · rw [validateBIRComplianceData_score_eq]
    congr 1
    ring
  · intro h
    rw [validateBIRComplianceData_errors_eq, h]
    refine ⟨{ field := "line_items", message := "Line items are required for BIR compliance",
              severity := .critical,
              birRequirement := "BIR requires detailed line items for invoice validation" },
            ?_, rfl, rfl⟩
    simp [birLineItemsBlock, validateLineItemsCompleteness, licAux]

/-- Witness for C1 at the empty record (no line items): the score formula
holds and the zero-line-items hard error is raised. -/
theorem birComplianceScoreFormula_C1_witness :
    (validateBIRComplianceData 0 ({} : BIRInvoiceData) officialBirCompliance).score =
      jround (100 * (birRequiredAchievedWeight {} officialBirCompliance +
        birLineItemsShare {}) / (birRuleWeightSum officialBirCompliance + 15)) ∧
    ∃ e ∈ (validateBIRComplianceData 0 ({} : BIRInvoiceData) officialBirCompliance).errors,
      e.field = "line_items" ∧ e.severity = .critical :=
  ⟨(birComplianceScoreFormula_C1 0 {} officialBirCompliance).1,
   (birComplianceScoreFormula_C1 0 {} officialBirCompliance).2 rfl⟩

/-- A record on which every rule of `vat_registered_bir_compliance` passes
(the two non-required rules pass with `null` values) and whose single line
item is complete. -/
def birVatPerfectRecord : BIRInvoiceData where
  vat_registration_status := some .vat_registered
  vat_exempt_statement := some true
  line_items := some [⟨1, 10, "x", 10⟩]

lemma birVatPerfectRecord_share : birLineItemsShare birVatPerfectRecord = 15 := by
  have hm : lineItemMissingFields ⟨1, 10, "x", 10⟩ = [] := by
    have hs : ¬((("x" : String) = "") ∨ jsTrim "x" = "") := by decide
    unfold lineItemMissingFields
    norm_num [hs]
  unfold birLineItemsShare
  have hlic : validateLineItemsCompleteness (birVatPerfectRecord.line_items.getD []) =
      { totalItems := 1, completeItems := 1, incompleteItems := [] } := by
    show validateLineItemsCompleteness [⟨1, 10, "x", 10⟩] = _
    unfold validateLineItemsCompleteness
    simp [hm, licAux]
  rw [hlic]
  norm_num

/-- Counterexample to C1 as stated: on `birVatPerfectRecord` (every rule of
the registered `vat_registered_bir_compliance` set passes, all line items
complete) the code computes score 74, while the claim formula — crediting
the weight of *all* rules whose validator passes — yields 100. -/
theorem birComplianceScoreFormula_C1_counterexample :
    (∀ r ∈ vatRegisteredBirCompliance.rules, evalBIRRule birVatPerfectRecord r = true) ∧
    (validateBIRComplianceData 0 birVatPerfectRecord vatRegisteredBirCompliance).score = 74 ∧
    jround (100 * (specAllPassAchievedWeight birVatPerfectRecord vatRegisteredBirCompliance +
      birLineItemsShare birVatPerfectRecord) / (birRuleWeightSum vatRegisteredBirCompliance + 15))
      = 100 := by
  have hall : ∀ r ∈ vatRegisteredBirCompliance.rules, evalBIRRule birVatPerfectRecord r = true := by
    decide
  refine ⟨hall, ?_, ?_⟩
  · rw [validateBIRComplianceData_score_eq, birRequiredAchievedWeight_of_allpass hall,
      birVatPerfectRecord_share]
    norm_num [vatRegisteredBirCompliance, birRuleWeightSum, jround]
  · rw [specAllPassAchievedWeight_of_allpass hall, birVatPerfectRecord_share]
    norm_num [vatRegisteredBirCompliance, birRuleWeightSum, jround]

/-- C2 (amended): `isCompliant` is true exactly when the score reaches the
rule set's minimum **and** the error list is empty (this iff holds for
every rule set and also on the schema-failure path); and — restricted to
the `official_bir_compliance` rule set, whose required-rule weights can
reach the minimum — every record passing all weighted rules, with all line
items complete (at least one) and no business-rule or date error, is
compliant with score ≥ minimumScore.  (Amended from the claim: for the
registered `vat_registered_bir_compliance` / `non_vat_registered_bir_compliance`
sets the compliant verdict is unreachable even under those hypotheses, cf. the
counterexample.) -/
theorem birComplianceGate_C2 (today : ℤ) (d : BIRInvoiceData) :
    (∀ rs : BIRComplianceRuleSet,
      ((validateBIRComplianceData today d rs).isCompliant = true ↔
        (rs.minimumScore ≤ (validateBIRComplianceData today d rs).score ∧
         (validateBIRComplianceData today d rs).errors = []))) ∧
    birSchemaFailureResult.isCompliant = false ∧
    ((∀ r ∈ officialBirCompliance.rules, evalBIRRule d r = true) →
     (validateLineItemsCompleteness (d.line_items.getD [])).completeItems =
        (validateLineItemsCompleteness (d.line_items.getD [])).totalItems →
     0 < (validateLineItemsCompleteness (d.line_items.getD [])).totalItems →
     (performBIRBusinessRuleValidations d).1 = [] →
     (performBIRSpecificValidations today d).1 = [] →
     (validateBIRComplianceData today d officialBirCompliance).isCompliant = true ∧
       90 ≤ (validateBIRComplianceData today d officialBirCompliance).score) := by
  refine ⟨fun rs => ?_, rfl, fun hpass hcomp hpos hbiz hspec => ?_⟩
  · rw [validateBIRComplianceData_isCompliant_eq]
    simp [List.isEmpty_iff]
  · have hshare : birLineItemsShare d = 15 := by
      unfold birLineItemsShare
      rw [if_neg (by omega), hcomp]
      have ht : ((validateLineItemsCompleteness (d.line_items.getD [])).totalItems : ℚ) ≠ 0 := by
        exact_mod_cast hpos.ne'
      rw [div_self ht, one_mul]
    have hscore : (validateBIRComplianceData today d officialBirCompliance).score = 100 := by
      rw [validateBIRComplianceData_score_eq, birRequiredAchievedWeight_of_allpass hpass,
        hshare]
      norm_num [officialBirCompliance, birRuleWeightSum, jround]
    have herr : (validateBIRComplianceData today d officialBirCompliance).errors = [] := by
      rw [validateBIRComplianceData_errors_eq,
        birApplyRules_errors_nil (fun r hr _ => hpass r hr), hbiz, hspec]
      simp [birLineItemsBlock, if_pos (And.intro hcomp hpos)]
    refine ⟨?_, by rw [hscore]; norm_num⟩
    rw [validateBIRComplianceData_isCompliant_eq, hscore, herr]
    norm_num [officialBirCompliance]

/-- A record satisfying every rule, invariant and advisory check of the
official rule set (a Non-VAT invoice with a zero VAT amount shown). -/
def birOfficialPerfectRecord : BIRInvoiceData where
  seller_registered_name := some "Acme Corp"
  seller_tin := some "123-456-789-000"
  seller_address := some "Manila"
  invoice_word_present := some true
  transaction_date := some "2024-01-15"
  buyer_registered_name := some "Buyer Inc"
  buyer_address := some "Cebu"
  buyer_tin := some "123-456-789-001"
  serial_number := some "INV-0001"
  total_amount := some 100
  line_items := some [⟨1, 10, "Item", 10⟩]
  document_control_type := some .manual
  atp_ocn_number := some "ATP-123"
  vat_registration_status := some .non_vat_registered
  vat_amount := some 0

lemma birOfficialPerfectRecord_lic :
    validateLineItemsCompleteness (birOfficialPerfectRecord.line_items.getD []) =
      { totalItems := 1, completeItems := 1, incompleteItems := [] } := by
  have hs : ¬((("Item" : String) = "") ∨ jsTrim "Item" = "") := by decide
  have hm : lineItemMissingFields ⟨1, 10, "Item", 10⟩ = [] := by
    unfold lineItemMissingFields
    norm_num [hs]
  show validateLineItemsCompleteness [⟨1, 10, "Item", 10⟩] = _
  unfold validateLineItemsCompleteness
  simp [hm, licAux]

/-- Witness for C2 applied at `birOfficialPerfectRecord` (the clock is a
day in 2025, after the invoice date). -/
theorem birComplianceGate_C2_witness :
    (validateBIRComplianceData 760000 birOfficialPerfectRecord officialBirCompliance).isCompliant
      = true ∧
    90 ≤ (validateBIRComplianceData 760000 birOfficialPerfectRecord officialBirCompliance).score := by
  apply (birComplianceGate_C2 760000 birOfficialPerfectRecord).2.2
  · intro r hr
    fin_cases hr
    · decide
    · decide
    · decide
    · decide
    · decide
    · decide
    · decide
    · decide
    · decide
    · norm_num [evalBIRRule, getBIRField, vPositiveNumber, birOfficialPerfectRecord]
    · decide
    · decide
  · rw [birOfficialPerfectRecord_lic]
  · rw [birOfficialPerfectRecord_lic]
    norm_num
  · have hs : ¬((("Item" : String) = "") ∨ jsTrim "Item" = "") := by decide
    have hatp : ¬(("ATP-123" : String) = "") := by decide
    norm_num [performBIRBusinessRuleValidations, birVatExclusivityErrors, birDocControlErrors,
      birLineItemsBizBlock, bizLineItemChecks, jsTruthyOS, jsTruthyOB, hs, hatp,
      birOfficialPerfectRecord]
  · have hpd : jsParseDate "2024-01-15" = some 752942 := by decide
    norm_num [performBIRSpecificValidations, hpd, jsOneYearAgo, birOfficialPerfectRecord]

/-- Counterexample to C2 as stated: on `birVatPerfectRecord` every weighted
rule of the registered `vat_registered_bir_compliance` set passes, all line
items are complete, the error list is empty — yet `isCompliant` is false
(the score caps at 74 < 90). -/
theorem birComplianceGate_C2_counterexample :
    (∀ r ∈ vatRegisteredBirCompliance.rules, evalBIRRule birVatPerfectRecord r = true) ∧
    (validateLineItemsCompleteness (birVatPerfectRecord.line_items.getD [])).completeItems =
      (validateLineItemsCompleteness (birVatPerfectRecord.line_items.getD [])).totalItems ∧
    (validateBIRComplianceData 0 birVatPerfectRecord vatRegisteredBirCompliance).errors = [] ∧
    (validateBIRComplianceData 0 birVatPerfectRecord vatRegisteredBirCompliance).isCompliant
      = false := by
  have hs : ¬((("x" : String) = "") ∨ jsTrim "x" = "") := by decide
  have hm : lineItemMissingFields ⟨1, 10, "x", 10⟩ = [] := by
    unfold lineItemMissingFields
    norm_num [hs]
  have hlic : validateLineItemsCompleteness (birVatPerfectRecord.line_items.getD []) =
      { totalItems := 1, completeItems := 1, incompleteItems := [] } := by
    show validateLineItemsCompleteness [⟨1, 10, "x", 10⟩] = _
    unfold validateLineItemsCompleteness
    simp [hm, licAux]
  have hall : ∀ r ∈ vatRegisteredBirCompliance.rules,
      evalBIRRule birVatPerfectRecord r = true := by decide
  refine ⟨hall, by rw [hlic], ?_, ?_⟩
  · rw [validateBIRComplianceData_errors_eq,
      birApplyRules_errors_nil (fun r hr _ => hall r hr), hlic]
    have hbiz : (performBIRBusinessRuleValidations birVatPerfectRecord).1 = [] := by
      norm_num [performBIRBusinessRuleValidations, birVatExclusivityErrors, birDocControlErrors,
        birLineItemsBizBlock, bizLineItemChecks, jsTruthyOB, hs, birVatPerfectRecord]
    have hspec : (performBIRSpecificValidations 0 birVatPerfectRecord).1 = [] := by
      norm_num [performBIRSpecificValidations, birVatPerfectRecord]
    rw [hbiz, hspec]
    simp [birLineItemsBlock]
  · have hsc := vatSetScore_le 0 birVatPerfectRecord
    have hno : ¬ (vatRegisteredBirCompliance.minimumScore ≤
        (validateBIRComplianceData 0 birVatPerfectRecord vatRegisteredBirCompliance).score) := by
      have hmn : vatRegisteredBirCompliance.minimumScore = 90 := rfl
      omega
    rw [validateBIRComplianceData_isCompliant_eq]
    simp [hno]

lemma jsTruthyOB_eq_true_iff (o : Option Bool) : jsTruthyOB o = true ↔ o = some true := by
  cases o with
  | none => simp [jsTruthyOB]
  | some b => cases b <;> simp [jsTruthyOB]

lemma lineItemFieldName_head (i : ℕ) (suffix : String) :
    (lineItemFieldName i suffix).data.head? = some 'l' := by
  show (("line_items[" ++ toString i ++ "]." ++ suffix)).data.head? = some 'l'
  rfl

lemma lineItemFieldName_ne_vat (i : ℕ) (suffix : String) :
    lineItemFieldName i suffix ≠ "vat_amount" ∧
    lineItemFieldName i suffix ≠ "vat_exempt_statement" := by
  constructor <;>
  · intro h
    have h1 := lineItemFieldName_head i suffix
    rw [h] at h1
    exact absurd h1 (by decide)

lemma bizLineItemChecks_no_vat_fields (items : List BIRLineItem) :
    ∀ i, ∀ e ∈ (bizLineItemChecks i items).1,
      e.field ≠ "vat_amount" ∧ e.field ≠ "vat_exempt_statement" := by
  induction items with
  | nil => intro i e he; simp [bizLineItemChecks] at he
  | cons item rest ih =>
    intro i e he
    simp only [bizLineItemChecks, List.mem_append] at he
    rcases he with ((he | he) | he) | he
    · split at he
      · simp at he
        subst he
        exact lineItemFieldName_ne_vat i "quantity"
      · simp at he
    · split at he
      · simp at he
        subst he
        exact lineItemFieldName_ne_vat i "unit_cost"
      · simp at he
    · split at he
      · simp at he
        subst he
        exact lineItemFieldName_ne_vat i "description"
      · simp at he
    · exact ih (i + 1) e he

lemma birLineItemsBizBlock_no_vat_fields (d : BIRInvoiceData) :
    ∀ e ∈ (birLineItemsBizBlock d).1,
      e.field ≠ "vat_amount" ∧ e.field ≠ "vat_exempt_statement" := by
  intro e he
  unfold birLineItemsBizBlock at he
  cases hli : d.line_items with
  | none =>
    simp only [hli] at he
    simp at he
    subst he
    exact ⟨by decide, by decide⟩
  | some items =>
    simp only [hli] at he
    by_cases hi : items.isEmpty
    · rw [if_pos hi] at he
      simp at he
      subst he
      exact ⟨by decide, by decide⟩
    · rw [if_neg hi] at he
      exact bizLineItemChecks_no_vat_fields items 0 e he

lemma birDocControlErrors_no_vat_fields (d : BIRInvoiceData) :
    ∀ e ∈ birDocControlErrors d,
      e.field ≠ "vat_amount" ∧ e.field ≠ "vat_exempt_statement" := by
  intro e he
  unfold birDocControlErrors at he
  split at he
  · split at he
    · simp at he
    · simp at he
      subst he
      exact ⟨by decide, by decide⟩
  · split at he
    · simp at he
    · simp at he
      subst he
      exact ⟨by decide, by decide⟩
  · simp at he

lemma mem_biz_exempt_iff (d : BIRInvoiceData) :
    (∃ e ∈ (performBIRBusinessRuleValidations d).1,
        e.field = "vat_exempt_statement" ∧ e.severity = .critical) ↔
      ((d.vat_registration_status = some .vat_registered ∧
          d.vat_exempt_statement ≠ some true) ∨
       (d.vat_registration_status = some .non_vat_registered ∧
          d.vat_exempt_statement = some true)) := by
  constructor
  · rintro ⟨e, he, hf, _⟩
    unfold performBIRBusinessRuleValidations at he
    simp only [List.mem_append] at he
    rcases he with (he | he) | he
    · unfold birVatExclusivityErrors at he
      cases hst : d.vat_registration_status with
      | none => simp only [hst] at he; simp at he
      | some st =>
        simp only [hst] at he
        cases st with
        | vat_registered =>
          rcases List.mem_append.mp he with he | he
          · split at he
            · simp at he
            · next hb =>
              left
              exact ⟨rfl, fun hcontra => hb ((jsTruthyOB_eq_true_iff _).mpr hcontra)⟩
          · exfalso
            cases ha : d.vat_amount with
            | none => simp only [ha] at he; simp at he
            | some v =>
              simp only [ha] at he
              split at he
              · simp at he; subst he; simp at hf
              · simp at he
        | non_vat_registered =>
          rcases List.mem_append.mp he with he | he
          · exfalso
            cases ha : d.vat_amount with
            | none => simp only [ha] at he; simp at he; subst he; simp at hf
            | some v => simp only [ha] at he; simp at he
          · split at he
            · next hb =>
              right
              exact ⟨rfl, (jsTruthyOB_eq_true_iff _).mp hb⟩
            · simp at he
    · exact absurd hf (birDocControlErrors_no_vat_fields d e he).2
    · exact absurd hf (birLineItemsBizBlock_no_vat_fields d e he).2
  · intro h
    unfold performBIRBusinessRuleValidations birVatExclusivityErrors
    rcases h with ⟨h1, h2⟩ | ⟨h1, h2⟩
    · rw [h1]
      have hb : jsTruthyOB d.vat_exempt_statement = false := by
        rw [← Bool.not_eq_true, jsTruthyOB_eq_true_iff]
        exact h2
      refine ⟨{ field := "vat_exempt_statement",
                message := "VAT-registered invoices must state EXEMPT on the face of the invoice",
                severity := .critical,
                birRequirement := "BIR requires EXEMPT statement for VAT-registered businesses" },
              ?_, rfl, rfl⟩
      simp [hb]
    · rw [h1]
      have hb : jsTruthyOB d.vat_exempt_statement = true := (jsTruthyOB_eq_true_iff _).mpr h2
      refine ⟨{ field := "vat_exempt_statement",
                message := "Non-VAT registered invoices should not have EXEMPT statement",
                severity := .critical,
                birRequirement := "Invoice cannot have both VAT & Non-VAT fields" },
              ?_, rfl, rfl⟩
      simp [hb]

lemma mem_biz_vatamount_iff (d : BIRInvoiceData) :
    (∃ e ∈ (performBIRBusinessRuleValidations d).1,
        e.field = "vat_amount" ∧ e.severity = .critical) ↔
      ((d.vat_registration_status = some .vat_registered ∧
          ∃ v, d.vat_amount = some v ∧ 0 < v) ∨
       (d.vat_registration_status = some .non_vat_registered ∧
          d.vat_amount = none)) := by
  constructor
  · rintro ⟨e, he, hf, _⟩
    unfold performBIRBusinessRuleValidations at he
    simp only [List.mem_append] at he
    rcases he with (he | he) | he
    · unfold birVatExclusivityErrors at he
      cases hst : d.vat_registration_status with
      | none => simp only [hst] at he; simp at he
      | some st =>
        simp only [hst] at he
        cases st with
        | vat_registered =>
          rcases List.mem_append.mp he with he | he
          · exfalso
            split at he
            · simp at he
            · simp at he; subst he; simp at hf
          · cases ha : d.vat_amount with
            | none => simp only [ha] at he; simp at he
            | some v =>
              simp only [ha] at he
              split at he
              · next hv => exact Or.inl ⟨rfl, v, rfl, hv.2⟩
              · simp at he
        | non_vat_registered =>
          rcases List.mem_append.mp he with he | he
          · cases ha : d.vat_amount with
            | none => exact Or.inr ⟨rfl, rfl⟩
            | some v => simp only [ha] at he; simp at he
          · exfalso
            split at he
            · simp at he; subst he; simp at hf
            · simp at he
    · exact absurd hf (birDocControlErrors_no_vat_fields d e he).1
    · exact absurd hf (birLineItemsBizBlock_no_vat_fields d e he).1
  · intro h
    unfold performBIRBusinessRuleValidations birVatExclusivityErrors
    rcases h with ⟨h1, v, h2, h3⟩ | ⟨h1, h2⟩
    · rw [h1, h2]
      refine ⟨{ field := "vat_amount",
                message := "VAT-registered invoices cannot show VAT amount as separate line item",
                severity := .critical,
                birRequirement := "Invoice cannot have both VAT & Non-VAT fields" },
              ?_, rfl, rfl⟩
      simp [if_pos (And.intro h3.ne' h3)]
    · rw [h1, h2]
      refine ⟨{ field := "vat_amount",
                message := "Non-VAT registered invoices must show VAT amount as a separate line item",
                severity := .critical,
                birRequirement := "BIR requires VAT amount breakdown for Non-VAT registered businesses" },
              ?_, rfl, rfl⟩
      simp

/-- C4 (amended): the cross-field VAT exclusivity checks always run, and
their critical errors land in the result of `validateBIRCompliance` under
any rule set.  For a VAT-registered record: a `vat_exempt_statement`
critical error is raised iff the EXEMPT flag is not set, and a `vat_amount`
critical error iff a **positive** VAT amount is present (amended from the
claim's "non-zero": a negative VAT amount raises nothing).  For a
Non-VAT-registered record: a `vat_amount` critical error iff the field is
absent (null — zero does not error), and a `vat_exempt_statement` critical
error iff the EXEMPT flag is set.  In particular a VAT-registered record
with the EXEMPT statement and a positive VAT amount always yields a
critical `vat_amount` error. -/
theorem birVatExclusivity_C4 (today : ℤ) (d : BIRInvoiceData) (rs : BIRComplianceRuleSet) :
    (∀ e ∈ (performBIRBusinessRuleValidations d).1,
        e ∈ (validateBIRComplianceData today d rs).errors) ∧
    (d.vat_registration_status = some .vat_registered →
      ((∃ e ∈ (performBIRBusinessRuleValidations d).1,
          e.field = "vat_exempt_statement" ∧ e.severity = .critical) ↔
        d.vat_exempt_statement ≠ some true) ∧
      ((∃ e ∈ (performBIRBusinessRuleValidations d).1,
          e.field = "vat_amount" ∧ e.severity = .critical) ↔
        ∃ v, d.vat_amount = some v ∧ 0 < v)) ∧
    (d.vat_registration_status = some .non_vat_registered →
      ((∃ e ∈ (performBIRBusinessRuleValidations d).1,
          e.field = "vat_amount" ∧ e.severity = .critical) ↔
        d.vat_amount = none) ∧
      ((∃ e ∈ (performBIRBusinessRuleValidations d).1,
          e.field = "vat_exempt_statement" ∧ e.severity = .critical) ↔
        d.vat_exempt_statement = some true)) ∧
    (d.vat_registration_status = some .vat_registered →
      d.vat_exempt_statement = some true →
      ∀ v, d.vat_amount = some v → 0 < v →
      ∃ e ∈ (validateBIRComplianceData today d rs).errors,
        e.field = "vat_amount" ∧ e.severity = .critical) := by
  have hmem : ∀ e ∈ (performBIRBusinessRuleValidations d).1,
      e ∈ (validateBIRComplianceData today d rs).errors := by
    intro e he
    rw [validateBIRComplianceData_errors_eq]
    simp only [List.mem_append]
    tauto
  refine ⟨hmem, fun hv => ⟨?_, ?_⟩, fun hnv => ⟨?_, ?_⟩, fun hv hex v hva hpos => ?_⟩
  · rw [mem_biz_exempt_iff, hv]
    simp
  · rw [mem_biz_vatamount_iff, hv]
    simp
  · rw [mem_biz_vatamount_iff, hnv]
    simp
  · rw [mem_biz_exempt_iff, hnv]
    simp
  · obtain ⟨e, he, hprops⟩ := (mem_biz_vatamount_iff d).mpr (Or.inl ⟨hv, v, hva, hpos⟩)
    exact ⟨e, hmem e he, hprops⟩

/-- A VAT-registered record with the EXEMPT flag absent and a positive
VAT amount shown. -/
def birVatOffendingRecord : BIRInvoiceData where
  vat_registration_status := some .vat_registered
  vat_exempt_statement := some true
  vat_amount := some 1

/-- Witness for C4 at `birVatOffendingRecord`: the positive VAT amount on a
VAT-registered invoice with EXEMPT statement yields a critical `vat_amount`
error in the official-rule-set run. -/
theorem birVatExclusivity_C4_witness :
    ∃ e ∈ (validateBIRComplianceData 0 birVatOffendingRecord officialBirCompliance).errors,
      e.field = "vat_amount" ∧ e.severity = .critical :=
  (birVatExclusivity_C4 0 birVatOffendingRecord officialBirCompliance).2.2.2
    rfl rfl 1 rfl (by norm_num)

/-- A VAT-registered record with the EXEMPT statement and a **negative**
(hence non-zero) VAT amount; every rule of the vat-registered rule set
passes and its full validation run produces no error at all. -/
def birVatNegAmountRecord : BIRInvoiceData where
  vat_registration_status := some .vat_registered
  vat_exempt_statement := some true
  vat_amount := some (-1)
  line_items := some [⟨1, 10, "x", 10⟩]

/-- Counterexample to C4 as stated: `birVatNegAmountRecord` is
VAT-registered with an EXEMPT statement and a non-zero (−1) VAT amount,
yet `validateBIRCompliance` returns an **empty** error list — no critical
error names the conflicting field. -/
theorem birVatExclusivity_C4_counterexample :
    birVatNegAmountRecord.vat_registration_status = some .vat_registered ∧
    birVatNegAmountRecord.vat_exempt_statement = some true ∧
    birVatNegAmountRecord.vat_amount = some (-1) ∧ ((-1 : ℚ) ≠ 0) ∧
    (validateBIRCompliance 0 (some birVatNegAmountRecord)
        "vat_registered_bir_compliance").map (fun r => r.errors) = some [] := by
  refine ⟨rfl, rfl, rfl, by norm_num, ?_⟩
  have hs : ¬((("x" : String) = "") ∨ jsTrim "x" = "") := by decide
  have hall : ∀ r ∈ vatRegisteredBirCompliance.rules,
      evalBIRRule birVatNegAmountRecord r = true := by decide
  have herr : (validateBIRComplianceData 0 birVatNegAmountRecord
      vatRegisteredBirCompliance).errors = [] := by
    rw [validateBIRComplianceData_errors_eq,
      birApplyRules_errors_nil (fun r hr _ => hall r hr)]
    have hm : lineItemMissingFields ⟨1, 10, "x", 10⟩ = [] := by
      unfold lineItemMissingFields
      norm_num [hs]
    have hlic : validateLineItemsCompleteness (birVatNegAmountRecord.line_items.getD []) =
        { totalItems := 1, completeItems := 1, incompleteItems := [] } := by
      show validateLineItemsCompleteness [⟨1, 10, "x", 10⟩] = _
      unfold validateLineItemsCompleteness
      simp [hm, licAux]
    rw [hlic]
    have hbiz : (performBIRBusinessRuleValidations birVatNegAmountRecord).1 = [] := by
      norm_num [performBIRBusinessRuleValidations, birVatExclusivityErrors, birDocControlErrors,
        birLineItemsBizBlock, bizLineItemChecks, jsTruthyOB, hs, birVatNegAmountRecord]
    have hspec : (performBIRSpecificValidations 0 birVatNegAmountRecord).1 = [] := by
      norm_num [performBIRSpecificValidations, birVatNegAmountRecord]
    rw [hbiz, hspec]
    simp [birLineItemsBlock]
  show some (validateBIRComplianceData 0 birVatNegAmountRecord
      vatRegisteredBirCompliance).errors = some []
  rw [herr]

lemma countP_congr_mem {α : Type} {l : List α} {p q : α → Bool}
    (h : ∀ a ∈ l, p a = q a) : l.countP p = l.countP q := by
  induction l with
  | nil => rfl
  | cons a rest ih =>
    rw [List.countP_cons, List.countP_cons, h a (by simp),
      ih (fun x hx => h x (by simp [hx]))]

lemma countP_eq_length_of_all {α : Type} {l : List α} {p : α → Bool}
    (h : ∀ a ∈ l, p a = true) : l.countP p = l.length := by
  induction l with
  | nil => rfl
  | cons a rest ih =>
    rw [List.countP_cons, h a (by simp), ih (fun x hx => h x (by simp [hx]))]
    simp

lemma validateInvoiceDataWith_score_eq (today : ℤ) (d : InvoiceData)
    (rs : ValidationRuleSet) :
    (validateInvoiceDataWith today d rs).score =
      jround (((invApplyRules d rs.rules).2 : ℚ) / (rs.rules.length : ℚ) * 100) := rfl

lemma validateInvoiceDataWith_errors_eq (today : ℤ) (d : InvoiceData)
    (rs : ValidationRuleSet) :
    (validateInvoiceDataWith today d rs).errors =
      (invApplyRules d rs.rules).1 ++ (performAdditionalValidations today d).1 := rfl

lemma validateInvoiceDataWith_isValid_eq (today : ℤ) (d : InvoiceData)
    (rs : ValidationRuleSet) :
    (validateInvoiceDataWith today d rs).isValid =
      (validateInvoiceDataWith today d rs).errors.isEmpty := rfl

lemma performAdditionalValidations_errors_nil (today : ℤ) (d : InvoiceData) :
    (performAdditionalValidations today d).1 = [] := rfl

lemma VALIDATION_RULE_SETS_cases {name : String} {rs : ValidationRuleSet}
    (h : VALIDATION_RULE_SETS name = some rs) :
    rs = birInvoiceRuleSet ∨ rs = standardInvoiceRuleSet ∨
    rs = governmentInvoiceRuleSet ∨ rs = purchaseOrderBasedRuleSet := by
  unfold VALIDATION_RULE_SETS at h
  split_ifs at h
  · exact Or.inl (Option.some.inj h).symm
  · exact Or.inr (Or.inl (Option.some.inj h).symm)
  · exact Or.inr (Or.inr (Or.inl (Option.some.inj h).symm))
  · exact Or.inr (Or.inr (Or.inr (Option.some.inj h).symm))

/-- C5: for every rule set resolved from the registry and every parsed
record, `validateInvoiceData`: (a) is valid exactly when its error list is
empty (no score threshold involved), (b) scores
`round(100 × passedRules / totalRules)` with every rule counting equally
(all registry rules are `required`), and (c) when every rule of the
resolved rule set passes, returns `isValid = true` and `score = 100`. -/
theorem validateCompleteness_C5 (today : ℤ) (d : InvoiceData) (name : String)
    (rs : ValidationRuleSet) (h : VALIDATION_RULE_SETS name = some rs) :
    ((validateInvoiceDataWith today d rs).isValid = true ↔
      (validateInvoiceDataWith today d rs).errors = []) ∧
    (validateInvoiceDataWith today d rs).score =
      jround (100 * (rs.rules.countP (fun r => evalInvRule d r) : ℚ) /
        (rs.rules.length : ℚ)) ∧
    ((∀ r ∈ rs.rules, evalInvRule d r = true) →
      (validateInvoiceDataWith today d rs).isValid = true ∧
      (validateInvoiceDataWith today d rs).score = 100) := by
  have hcases := VALIDATION_RULE_SETS_cases h
  have hreq : ∀ r ∈ rs.rules, r.required = true := by
    rcases hcases with rfl | rfl | rfl | rfl <;> decide
  have hlen : rs.rules.length ≠ 0 := by
    rcases hcases with rfl | rfl | rfl | rfl <;> decide
  have hcount : (invApplyRules d rs.rules).2 =
      rs.rules.countP (fun r => evalInvRule d r) := by
    rw [invApplyRules_passed]
    exact countP_congr_mem (fun r hr => by rw [hreq r hr, Bool.true_and])
  refine ⟨?_, ?_, fun hpass => ⟨?_, ?_⟩⟩
  · rw [validateInvoiceDataWith_isValid_eq, List.isEmpty_iff]
  · rw [validateInvoiceDataWith_score_eq, hcount]
    congr 1
    ring
  · rw [validateInvoiceDataWith_isValid_eq, validateInvoiceDataWith_errors_eq,
      invApplyRules_errors_nil (fun r hr _ => hpass r hr),
      performAdditionalValidations_errors_nil]
    rfl
  · rw [validateInvoiceDataWith_score_eq, hcount, countP_eq_length_of_all hpass]
    have hq : ((rs.rules.length : ℚ)) ≠ 0 := by exact_mod_cast hlen
    rw [div_self hq]
    norm_num [jround]

/-- A record passing both rules of the `bir_invoice` rule set. -/
def invBirPerfectRecord : InvoiceData where
  form_2307_attached := true
  form_2307_consistent := some true

/-- Witness for C5 at `invBirPerfectRecord` with the `bir_invoice` rule
set: both rules pass, so validation succeeds with score 100. -/
theorem validateCompleteness_C5_witness :
    (validateInvoiceDataWith 0 invBirPerfectRecord birInvoiceRuleSet).isValid = true ∧
    (validateInvoiceDataWith 0 invBirPerfectRecord birInvoiceRuleSet).score = 100 :=
  (validateCompleteness_C5 0 invBirPerfectRecord "bir_invoice" birInvoiceRuleSet rfl).2.2
    (by decide)

lemma mem_ite_singleton {α : Type} {a x : α} {c : Prop} [Decidable c] :
    (a ∈ (if c then [x] else ([] : List α))) ↔ c ∧ a = x := by
  split <;> simp_all

lemma ite_singleton_eq_nil {α : Type} {x : α} {c : Prop} [Decidable c] :
    ((if c then [x] else ([] : List α)) = []) ↔ ¬c := by
  split <;> simp_all

/-- C6 (amended): the line-item completeness checker reports
`totalItems = |items|` with `completeItems + |incompleteItems| = totalItems`;
each incomplete item appears in `incompleteItems` under its own index with
its named missing fields; an item is complete iff quantity, unit cost and
line total are positive, the trimmed description is non-empty, and
`quantity × unit_cost` reconciles with `line_total` within ±0.01; and each
presence/positivity violation is recorded under its field name, while the
arithmetic-reconciliation violation is recorded (as `accurate_calculation`)
**only when quantity, unit cost and line total are all nonzero** (amended
from the claim, which asserts every violated condition is recorded
unconditionally). -/
theorem lineItemCompleteness_C6 (items : List BIRLineItem) :
    (validateLineItemsCompleteness items).totalItems = items.length ∧
    (validateLineItemsCompleteness items).completeItems +
      (validateLineItemsCompleteness items).incompleteItems.length =
      (validateLineItemsCompleteness items).totalItems ∧
    (validateLineItemsCompleteness items).incompleteItems =
      (List.enumFrom 0 items).filterMap
        (fun p => if lineItemMissingFields p.2 = [] then none
                  else some ⟨p.1, lineItemMissingFields p.2⟩) ∧
    (∀ item : BIRLineItem,
      (lineItemMissingFields item = [] ↔
        (0 < item.quantity ∧ 0 < item.unit_cost ∧ 0 < item.line_total ∧
         jsTrim item.description ≠ "" ∧
         |item.line_total - item.quantity * item.unit_cost| ≤ 1/100)) ∧
      (("quantity" ∈ lineItemMissingFields item) ↔ item.quantity ≤ 0) ∧
      (("unit_cost" ∈ lineItemMissingFields item) ↔ item.unit_cost ≤ 0) ∧
      (("description" ∈ lineItemMissingFields item) ↔
        (item.description = "" ∨ jsTrim item.description = "")) ∧
      (("line_total" ∈ lineItemMissingFields item) ↔ item.line_total ≤ 0) ∧
      (("accurate_calculation" ∈ lineItemMissingFields item) ↔
        (item.quantity ≠ 0 ∧ item.unit_cost ≠ 0 ∧ item.line_total ≠ 0 ∧
         |item.line_total - item.quantity * item.unit_cost| > 1/100))) := by
  refine ⟨rfl, licAux_count items 0, licAux_snd items 0, fun item => ?_⟩
  refine ⟨?_, ?_, ?_, ?_, ?_, ?_⟩
  · simp only [lineItemMissingFields, List.append_eq_nil, ite_singleton_eq_nil]
    constructor
    · rintro ⟨⟨⟨⟨h1, h2⟩, h3⟩, h4⟩, h5⟩
      push_neg at h1 h2 h3 h4 h5
      refine ⟨h1, h2, h4, h3.2, ?_⟩
      have := h5 (ne_of_gt h1) (ne_of_gt h2) (ne_of_gt h4)
      linarith
    · rintro ⟨h1, h2, h3, h4, h5⟩
      refine ⟨⟨⟨⟨by push_neg; linarith, by push_neg; linarith⟩, ?_⟩,
        by push_neg; linarith⟩, ?_⟩
      · rintro (hd | hd)
        · exact h4 (by rw [hd]; decide)
        · exact h4 hd
      · rintro ⟨_, _, _, hcalc⟩
        linarith
  · simp [lineItemMissingFields, mem_ite_singleton]
  · simp [lineItemMissingFields, mem_ite_singleton]
  · simp [lineItemMissingFields, mem_ite_singleton]
  · simp [lineItemMissingFields, mem_ite_singleton]
  · simp [lineItemMissingFields, mem_ite_singleton]

/-- Counterexample to C6 as stated: the item `⟨0, 5, "x", 7⟩` violates both
the positivity condition on quantity and the arithmetic reconciliation
(`|7 − 0×5| > 0.01`), but only `quantity` is recorded —
`accurate_calculation` is silently skipped because the truthiness guard
fails on `quantity = 0`. -/
theorem lineItemCompleteness_C6_counterexample :
    (validateLineItemsCompleteness [⟨0, 5, "x", 7⟩]).incompleteItems =
      [⟨0, ["quantity"]⟩] ∧
    ¬(("accurate_calculation" : String) ∈ (["quantity"] : List String)) ∧
    ¬(|(7 : ℚ) - 0 * 5| ≤ 1/100) := by
  refine ⟨?_, by decide, by norm_num⟩
  have hs : ¬((("x" : String) = "") ∨ jsTrim "x" = "") := by decide
  have hm : lineItemMissingFields ⟨0, 5, "x", 7⟩ = ["quantity"] := by
    unfold lineItemMissingFields
    norm_num [hs]
  unfold validateLineItemsCompleteness
  simp [hm, licAux]

/-- The §8 scenario record: `vendor_tin "123-456-789-000"`,
`total_amount 11200.00`, one line item, `signature_present true`,
`invoice_number "BIR-2024-001"` (the raw extraction's `bir_atp: true` is
stripped by `InvoiceDataSchema.parse`, which has no such member — the
parsed record cannot carry it). -/
def invStandardScenarioRecord : InvoiceData where
  invoice_number := some "BIR-2024-001"
  vendor_tin := some "123-456-789-000"
  total_amount := some 11200
  line_items := [⟨"Consulting", 1, 10000, 10000⟩]
  signature_present := true

/-- C7 (evaluation at the failing input): standard validation of the §8
scenario record yields `isValid = false` and `score = 80` with a single
`bir_atp` error — not the claimed `isValid = true`, `score = 100` — because
the `bir_atp` field read by the standard rule set does not exist on the
parsed record (`getInvField` returns JS `undefined` for it), so its
`=== true` validator can never pass. -/
theorem standardScenario_C7 :
    (validateInvoiceData 0 (some invStandardScenarioRecord) "standard_invoice").map
      (fun r => (r.isValid, r.score, r.errors.map (fun e => e.field))) =
      some (false, 80, ["bir_atp"]) ∧
    getInvField invStandardScenarioRecord "bir_atp" = .vundefined := by
  refine ⟨?_, rfl⟩
  have htin : evalInvRule invStandardScenarioRecord
      { field := "vendor_tin", required := true, validator := some wTin,
        errorMessage := "Valid vendor TIN is required (format: XXX-XXX-XXX-XXX)" } = true := by
    decide
  have hloop : invApplyRules invStandardScenarioRecord standardInvoiceRuleSet.rules =
      ([{ field := "bir_atp",
          message := "BIR Authority to Print (ATP) is required and must be present on the invoice",
          severity := .critical }], 4) := by
    have h1 : evalInvRule invStandardScenarioRecord
        { field := "bir_atp", required := true, validator := some wIsTrue,
          errorMessage := "BIR Authority to Print (ATP) is required and must be present on the invoice" } = false := by decide
    have h2 : evalInvRule invStandardScenarioRecord
        { field := "signature_present", required := true, validator := some wIsTrue,
          errorMessage := "Authorized signature is required on the invoice" } = true := by decide
    have h3 : evalInvRule invStandardScenarioRecord
        { field := "invoice_number", required := true, validator := some wNonEmptyString,
          errorMessage := "Invoice number is required" } = true := by decide
    have h5 : evalInvRule invStandardScenarioRecord
        { field := "total_amount", required := true, validator := some wPositiveNumber,
          errorMessage := "Total amount must be greater than zero" } = true := by
      norm_num [evalInvRule, getInvField, wPositiveNumber, invStandardScenarioRecord]
    simp [standardInvoiceRuleSet, invApplyRules, h1, h2, h3, htin, h5]
  simp only [validateInvoiceData]
  simp [VALIDATION_RULE_SETS, validateInvoiceDataWith, hloop, performAdditionalValidations]
  norm_num [standardInvoiceRuleSet, jround]

/-- C8 (amended): for every parsed record with at least one line item and
a stated **non-zero** subtotal, the validator emits a `subtotal` warning
iff the absolute difference between the sum of the items' line totals and
the stated subtotal exceeds 1 (so exactly 1.00 does not warn, 1.01 does).
Amended from the claim: a stated subtotal of exactly 0 is falsy in JS and
never warns, however large the mismatch. -/
theorem subtotalWarning_C8 (today : ℤ) (d : InvoiceData) (rs : ValidationRuleSet) (s : ℚ)
    (h1 : d.line_items ≠ []) (h2 : d.subtotal = some s) (h3 : s ≠ 0) :
    (∃ w ∈ (validateInvoiceDataWith today d rs).warnings, w.field = "subtotal") ↔
      |((d.line_items.map (fun it => it.line_total)).sum) - s| > 1 := by
  have hie : d.line_items.isEmpty = false := by
    cases hl : d.line_items with
    | nil => exact absurd hl h1
    | cons a as => rfl
  have hw : (validateInvoiceDataWith today d rs).warnings =
      (performAdditionalValidations today d).2 := rfl
  rw [hw]
  unfold performAdditionalValidations
  simp only [hie, h2, Bool.false_eq_true, if_false]
  constructor
  · rintro ⟨w, hw', hf⟩
    simp only [List.mem_append] at hw'
    rcases hw' with (hw' | hw') | hw'
    · exfalso
      split at hw'
      · split at hw'
        · simp at hw'
          subst hw'
          simp at hf
        · simp at hw'
      · simp at hw'
    · split at hw'
      · next hcond => exact hcond.2
      · simp at hw'
    · exfalso
      split at hw'
      · split at hw'
        · split at hw'
          · simp at hw'
            subst hw'
            simp at hf
          · simp at hw'
        · simp at hw'
      · simp at hw'
  · intro hgt
    refine ⟨{ field := "subtotal",
              message := "Subtotal mismatch. Calculated: ₱" ++
                toString ((d.line_items.map (fun it => it.line_total)).sum) ++
                ", Stated: ₱" ++ toString s,
              suggestion := some "Verify line item calculations" }, ?_, rfl⟩
    rw [if_pos (And.intro h3 hgt)]
    simp

/-- One line item summing to 10 with stated subtotal 11.01 (mismatch 1.01). -/
def invSubtotalOffRecord : InvoiceData where
  line_items := [⟨"x", 1, 10, 10⟩]
  subtotal := some (1101/100)

/-- One line item summing to 10 with stated subtotal 11 (mismatch exactly 1). -/
def invSubtotalOkRecord : InvoiceData where
  line_items := [⟨"x", 1, 10, 10⟩]
  subtotal := some 11

/-- Witness for C8 at the two boundary records: a 1.01 mismatch warns, an
exact 1.00 mismatch does not. -/
theorem subtotalWarning_C8_witness :
    (∃ w ∈ (validateInvoiceDataWith 0 invSubtotalOffRecord standardInvoiceRuleSet).warnings,
      w.field = "subtotal") ∧
    ¬(∃ w ∈ (validateInvoiceDataWith 0 invSubtotalOkRecord standardInvoiceRuleSet).warnings,
      w.field = "subtotal") := by
  constructor
  · refine (subtotalWarning_C8 0 invSubtotalOffRecord standardInvoiceRuleSet (1101/100)
      (by simp [invSubtotalOffRecord]) rfl (by norm_num)).mpr ?_
    norm_num [invSubtotalOffRecord]
    rw [abs_of_pos (by norm_num : (0 : ℚ) < 101/100)]
    norm_num
  · intro hcontra
    have h := (subtotalWarning_C8 0 invSubtotalOkRecord standardInvoiceRuleSet 11
      (by simp [invSubtotalOkRecord]) rfl (by norm_num)).mp hcontra
    norm_num [invSubtotalOkRecord] at h

/-- One line item summing to 5 with stated subtotal 0. -/
def invSubtotalZeroRecord : InvoiceData where
  line_items := [⟨"x", 1, 5, 5⟩]
  subtotal := some 0

/-- Counterexample to C8 as stated: the record states subtotal 0 while its
line items sum to 5 — a mismatch far beyond 1 — yet the validator emits no
warning at all, because `data.subtotal &&` treats the stated 0 as absent. -/
theorem subtotalWarning_C8_counterexample :
    invSubtotalZeroRecord.subtotal = some 0 ∧
    ((invSubtotalZeroRecord.line_items.map (fun it => it.line_total)).sum) = 5 ∧
    |(5 : ℚ) - 0| > 1 ∧
    (validateInvoiceDataWith 0 invSubtotalZeroRecord standardInvoiceRuleSet).warnings = [] := by
  refine ⟨rfl, by norm_num [invSubtotalZeroRecord], by norm_num, ?_⟩
  have hw : (validateInvoiceDataWith 0 invSubtotalZeroRecord standardInvoiceRuleSet).warnings =
      (performAdditionalValidations 0 invSubtotalZeroRecord).2 := rfl
  rw [hw]
  norm_num [performAdditionalValidations, invSubtotalZeroRecord]
  exact fun h => Option.noConfusion h

/-- C9: a general batch request with more than 50 document ids, or a BIR
batch request with more than 25, is rejected in the guard phase with the
HTTP-400 cap message — the guard returns `Except.error`, so no chunk list
is built and no document is processed. -/
theorem batchCap_C9 (ids : List String) :
    (50 < ids.length →
      batchValidateGuard (some ids) =
        .error (400, "Maximum 50 documents can be processed in a single batch")) ∧
    (25 < ids.length →
      batchBirComplianceGuard (some ids) =
        .error (400, "Maximum 25 documents can be processed in a single BIR compliance batch")) := by
  have hne : ∀ n, n < ids.length → ids.isEmpty = false := by
    intro n h
    cases ids with
    | nil => simp at h
    | cons a as => rfl
  constructor
  · intro h
    have he := hne 50 h
    unfold batchValidateGuard
    simp [he, h]
  · intro h
    have he := hne 25 h
    unfold batchBirComplianceGuard
    simp [he, h]

/-- Witness for C9 at 51 resp. 26 ids. -/
theorem batchCap_C9_witness :
    batchValidateGuard (some (List.replicate 51 "d")) =
      .error (400, "Maximum 50 documents can be processed in a single batch") ∧
    batchBirComplianceGuard (some (List.replicate 26 "d")) =
      .error (400, "Maximum 25 documents can be processed in a single BIR compliance batch") :=
  ⟨(batchCap_C9 (List.replicate 51 "d")).1 (by decide),
   (batchCap_C9 (List.replicate 26 "d")).2 (by decide)⟩

/-- C10 (amended): the re-validation endpoint re-runs validations in
pairs.  The attachment and BIR steps both re-run (and both status fields
are overwritten with `success`/`failed` verdicts) exactly when **either**
`attachmentValidationStatus` or `birValidationStatus` is `pending` or
`failed`; otherwise both are untouched.  Likewise the contract and amount
steps re-run exactly when either of their two statuses is `pending` or
`failed` (no update and an `AI Process Failed` response when the RAG
output does not parse).  Consequently a field that is already `success`
**is** re-run and may change when its pair partner is `pending` or
`failed` — the claim's "once success, never re-run / never changes" does
not hold (see the counterexample). -/
theorem statusTransition_C10 (today : ℤ) (inv : InvoiceRow) (rag : Option RagValidationOutput) :
    ((statusNeedsValidation inv.attachmentValidationStatus ||
        statusNeedsValidation inv.birValidationStatus) = false →
      (revalidateInvoice today inv rag).1.attachmentValidationStatus =
        inv.attachmentValidationStatus ∧
      (revalidateInvoice today inv rag).1.birValidationStatus = inv.birValidationStatus) ∧
    ((statusNeedsValidation inv.attachmentValidationStatus ||
        statusNeedsValidation inv.birValidationStatus) = true →
      (revalidateInvoice today inv rag).1.attachmentValidationStatus =
        some (if ((validateInvoiceData today inv.parsedDataDoc "bir_invoice").getD
            invSchemaFailureResult).isValid then "success" else "failed") ∧
      (revalidateInvoice today inv rag).1.birValidationStatus =
        some (if ((validateBIRCompliance today inv.parsedDataBir
            "official_bir_compliance").getD birSchemaFailureResult).isCompliant
          then "success" else "failed")) ∧
    ((statusNeedsValidation inv.contractValidationStatus ||
        statusNeedsValidation inv.amountValidationStatus) = false →
      (revalidateInvoice today inv rag).1.contractValidationStatus =
        inv.contractValidationStatus ∧
      (revalidateInvoice today inv rag).1.amountValidationStatus =
        inv.amountValidationStatus ∧
      (revalidateInvoice today inv rag).2 = none) ∧
    ((statusNeedsValidation inv.contractValidationStatus ||
        statusNeedsValidation inv.amountValidationStatus) = true →
      (rag = none →
        (revalidateInvoice today inv rag).1.contractValidationStatus =
          inv.contractValidationStatus ∧
        (revalidateInvoice today inv rag).1.amountValidationStatus =
          inv.amountValidationStatus ∧
        (revalidateInvoice today inv rag).2 = some "AI Process Failed") ∧
      (∀ a, rag = some a →
        (revalidateInvoice today inv rag).1.contractValidationStatus =
          some (if a.recommendations.action_required = "APPROVED"
            then "success" else "failed") ∧
        (revalidateInvoice today inv rag).1.amountValidationStatus =
          some (if a.overall_amount_validation = "APPROVED"
            then "success" else "failed") ∧
        (revalidateInvoice today inv rag).2 = none)) := by
  unfold revalidateInvoice
  refine ⟨fun h1 => ?_, fun h1 => ?_, fun h2 => ?_, fun h2 => ⟨fun hr => ?_, fun a hr => ?_⟩⟩
  · cases rag <;> simp [h1] <;> split <;> simp
  · cases rag <;> simp [h1] <;> split <;> simp
  · cases rag <;> simp [h2] <;> split <;> simp
  · subst hr
    simp [h2]
    refine ⟨?_, ?_⟩ <;> (split <;> simp)
  · subst hr
    simp [h2]

/-- An invoice whose attachment validation already succeeded but whose BIR
validation failed; contract and amount are both `success`. -/
def invRowSuccessFailed : InvoiceRow where
  attachmentValidationStatus := some "success"
  birValidationStatus := some "failed"
  contractValidationStatus := some "success"
  amountValidationStatus := some "success"

/-- Counterexample to C10 as stated: `attachmentValidationStatus` is
`success`, yet one re-validation call (triggered by the paired
`birValidationStatus = failed`) re-runs the attachment validation and
overwrites the field to `failed`. -/
theorem statusTransition_C10_counterexample :
    invRowSuccessFailed.attachmentValidationStatus = some "success" ∧
    (revalidateInvoice 0 invRowSuccessFailed none).1.attachmentValidationStatus =
      some "failed" := by
  refine ⟨rfl, ?_⟩
  have h1 : statusNeedsValidation (some "success") = false := by decide
  have h2 : statusNeedsValidation (some "failed") = true := by decide
  unfold revalidateInvoice
  simp [invRowSuccessFailed, h1, h2, validateInvoiceData, invSchemaFailureResult]

/-- Witness for C10 (amended) at `invRowSuccessFailed`: the first-pair
guard fires, so both paired status fields are overwritten with the
validators' verdicts. -/
theorem statusTransition_C10_witness :
    (revalidateInvoice 0 invRowSuccessFailed none).1.attachmentValidationStatus =
      some (if ((validateInvoiceData 0 invRowSuccessFailed.parsedDataDoc
          "bir_invoice").getD invSchemaFailureResult).isValid
        then "success" else "failed") ∧
    (revalidateInvoice 0 invRowSuccessFailed none).1.birValidationStatus =
      some (if ((validateBIRCompliance 0 invRowSuccessFailed.parsedDataBir
          "official_bir_compliance").getD birSchemaFailureResult).isCompliant
        then "success" else "failed") :=
  (statusTransition_C10 0 invRowSuccessFailed none).2.1 (by decide)
